import Mathlib

/-!
Formal model of the arbitrage execution engine of the `ggs` repository
(`paper_trading.py`, `real_trading.py`, and the probability normalizers of
`football_kalshi_api.py`, `football_polymarket_api.py`,
`esports_polymarket_api.py`).

Conventions of the shallow embedding:
* Python floats are modelled as exact rationals (`ℚ`).
* A Python value that may be `None` (or an absent dict key) is an `Option`.
* Python truthiness of optional strings (`if not x`) is `optFalsy`
  (`None` and `""` are falsy); `x or y` on such values is `pyOr`;
  `str(x)` applied to an optional string is `pyStr` (`str(None) = "None"`).
* The persisted ledger (`self.data`) is an explicit state value
  (`PaperState` / `RealState`); environment-variable configuration is an
  explicit configuration value; `datetime.now()` is an explicit `now`
  parameter (a timestamp in seconds) and `datetime.now().date().isoformat()`
  an explicit `today : String`.
* Venue HTTP clients are an explicit oracle (`VenueEnv`); outbound order
  placements/cancellations are recorded in an `Action` trace.
* `save_data` either succeeds or raises; the flag `VenueEnv.saveOk` models
  the outcome of the post-placement `save_data` call in
  `RealTradingSystem.execute_arb`.  `_record_error`'s own best-effort save
  is not modelled (it does not change the in-memory ledger).
-/

/-- Python truthiness test `not x` for an optional string: `None` and the
empty string are falsy. -/
def optFalsy : Option String → Bool
  | none => true
  | some s => s = ""

/-- Python `x or y` for optional strings: the first operand if truthy,
otherwise the second. -/
def pyOr (a b : Option String) : Option String :=
  if optFalsy a then b else a

/-- Python `str(x)` for an optional string (`str(None) = "None"`). -/
def pyStr : Option String → String
  | none => "None"
  | some s => s

/-- Trade status strings used by the two trading systems
(`pending`, `locked`, `settled`, `incomplete`). -/
inductive TStatus
  | pending
  | locked
  | settled
  | incomplete
deriving DecidableEq

/-- One leg of a trade, as built by `execute_arb` (both systems).  The
enrichment fields (`cost_usd`, …) are filled by the paper system; the order
fields (`order_id`, `order_status`) by the real system. -/
structure Leg where
  platform : String
  price : ℚ
  eff : ℚ
  team : String
  code : Option String
  market_id : Option String
  url : String := ""
  fee_rate : ℚ := 0
  order_id : Option String := none
  order_status : Option String := none
  cost_usd : ℚ := 0
  fee_usd : ℚ := 0
  payout_usd : ℚ := 0
  slippage_usd : ℚ := 0
deriving DecidableEq

/-- A trade record (`bet` dict) of either trading system. -/
structure Trade where
  id : String
  game : String := ""
  sport : String := ""
  timestamp : ℚ
  legs : List Leg
  quantity : ℚ
  cost : ℚ
  payout : ℚ
  profit : ℚ
  roi_percent : ℚ
  status : TStatus
  settled_amount : ℚ := 0
  realized_profit : ℚ := 0
  fees_total_usd : ℚ := 0
  slippage_total_usd : ℚ := 0
  arb_type : String := ""
  total_cost_per_unit : ℚ := 0
  bet_amount_config : ℚ := 0
  order_ids : List (String × Option String) := []
deriving DecidableEq

/-- Result of `check_status_func(platform, market_id)`:
`{'resolved': bool, 'winner': str-or-None}`. -/
structure SettStatus where
  resolved : Bool
  winner : Option String
deriving DecidableEq

/-- A settlement-status oracle: `platform → market_id → status`. -/
def CheckFn := String → String → SettStatus

/-- The winner comparison of `update_settlements`:
`str(winner) == str(leg.get('code')) or str(winner) == str(leg.get('team'))`. -/
def legWins (s : SettStatus) (leg : Leg) : Bool :=
  pyStr s.winner == pyStr leg.code || pyStr s.winner == leg.team

/-- The per-trade leg loop of `update_settlements` (identical in
`paper_trading.py` and `real_trading.py`): legs with a falsy `market_id`
are skipped (`continue`); the loop `break`s at the first leg whose status
is not resolved, keeping the payout and count accumulated so far.
Returns `(all_legs_resolved, total_payout, resolved_legs_count)`. -/
def scanLegs (f : CheckFn) (quantity : ℚ) : List Leg → Bool × ℚ × Nat
  | [] => (true, 0, 0)
  | leg :: rest =>
    if optFalsy leg.market_id then scanLegs f quantity rest
    else
      let s := f leg.platform (leg.market_id.getD "")
      if s.resolved then
        let r := scanLegs f quantity rest
        (r.1, (if legWins s leg then quantity else 0) + r.2.1, r.2.2 + 1)
      else (false, 0, 0)

/-- One pass of `PaperTradingSystem.update_settlements` over a single bet:
returns the updated bet and the payout credited to the balance. -/
def paperSettleBet (f : CheckFn) (bet : Trade) : Trade × ℚ :=
  if bet.status = .pending then
    let r := scanLegs f bet.quantity bet.legs
    if r.1 = true ∧ r.2.2 = bet.legs.length then
      ({ bet with status := .settled, settled_amount := r.2.1,
                  realized_profit := r.2.1 - bet.cost,
                  profit := r.2.1 - bet.cost }, r.2.1)
    else (bet, 0)
  else (bet, 0)

/-- The persisted state of `PaperTradingSystem` (`self.data`). -/
structure PaperState where
  balance : ℚ
  initial_balance : ℚ
  bets : List Trade
deriving DecidableEq

/-- `PaperTradingSystem.update_settlements`: each pending bet is settled
when every leg reports resolved, crediting its payout to the balance. -/
def paperUpdateSettlements (f : CheckFn) (st : PaperState) : PaperState :=
  { st with
    bets := st.bets.map (fun b => (paperSettleBet f b).1)
    balance := st.balance + (st.bets.map (fun b => (paperSettleBet f b).2)).sum }

/-- One pass of `RealTradingSystem.update_settlements` over a single bet:
returns the updated bet, the payout credited to the balance, and the
amount added to `daily_loss`.  Unlike the paper system it has the 24h
timeout branch, entered only when at least one leg was counted resolved
before the loop broke and strictly more than 86400 seconds elapsed. -/
def realSettleBet (f : CheckFn) (now : ℚ) (bet : Trade) : Trade × ℚ × ℚ :=
  if bet.status = .pending then
    let r := scanLegs f bet.quantity bet.legs
    if r.1 = true ∧ r.2.2 = bet.legs.length then
      let rp := r.2.1 - bet.cost
      ({ bet with status := .settled, settled_amount := r.2.1,
                  realized_profit := rp, profit := rp },
       r.2.1, if rp < 0 then -rp else 0)
    else if r.1 = false ∧ 0 < r.2.2 ∧ 86400 < now - bet.timestamp then
      let rp := r.2.1 - bet.cost
      ({ bet with status := .incomplete, settled_amount := r.2.1,
                  realized_profit := rp, profit := rp },
       r.2.1, if rp < 0 then -rp else 0)
    else (bet, 0, 0)
  else (bet, 0, 0)

/-- An entry of the bounded error log (`self.data['errors']`). -/
structure ErrEntry where
  trade_id : String
  error : String
deriving DecidableEq

/-- An entry of `self.data['daily_trades']`. -/
structure DailyEntry where
  date : String
  id : String
deriving DecidableEq

/-- The persisted state of `RealTradingSystem` (`self.data`). -/
structure RealState where
  balance : ℚ
  initial_balance : ℚ
  bets : List Trade
  daily_loss : ℚ
  daily_trades : List DailyEntry
  last_daily_reset_date : String
  errors : List ErrEntry
deriving DecidableEq

/-- `RealTradingSystem.update_settlements`. -/
def realUpdateSettlements (f : CheckFn) (now : ℚ) (st : RealState) : RealState :=
  { st with
    bets := st.bets.map (fun b => (realSettleBet f now b).1)
    balance := st.balance + (st.bets.map (fun b => (realSettleBet f now b).2.1)).sum
    daily_loss := st.daily_loss + (st.bets.map (fun b => (realSettleBet f now b).2.2)).sum }

/-- The probability normalizer of `FootballKalshiAPI._process_markets`
(lines 108-126): scale both raw values proportionally to 100, floor, and
award the remainder to the side with the smaller raw value (tie → away). -/
def kalshiNormalizePair (away_raw home_raw : ℚ) : ℤ × ℤ :=
  let total := away_raw + home_raw
  if 0 < total then
    let away_pct := away_raw / total * 100
    let home_pct := home_raw / total * 100
    let away_floor := ⌊away_pct⌋
    let home_floor := ⌊home_pct⌋
    let remainder := 100 - (away_floor + home_floor)
    if away_raw ≤ home_raw then (away_floor + remainder, home_floor)
    else (away_floor, home_floor + remainder)
  else (0, 0)

/-- The probability normalizer `FootballPolymarketAPI._normalize_pair`:
scale proportionally to 100, floor, and add the remainder to the side with
the larger floored value (`if f1 >= f2: f1 += rem`), tie → first argument. -/
def polyNormalizePair (prob1 prob2 : ℚ) : ℤ × ℤ :=
  let total := prob1 + prob2
  if total ≤ 0 then (0, 0)
  else
    let f1 := ⌊prob1 / total * 100⌋
    let f2 := ⌊prob2 / total * 100⌋
    let rem := 100 - (f1 + f2)
    if f2 ≤ f1 then (f1 + rem, f2) else (f1, f2 + rem)

/-- The probability normalization inside `EsportsPolymarketAPI.get_esports_games`
(lines 95-104): the raw values are floored directly, without proportional
scaling, and `100 - (floor1 + floor2)` is awarded to the side with the
smaller raw value (tie → first outcome). -/
def esportsNormalizePair (prob1 prob2 : ℚ) : ℤ × ℤ :=
  let floor1 := ⌊prob1⌋
  let floor2 := ⌊prob2⌋
  let remainder := 100 - (floor1 + floor2)
  if prob1 ≤ prob2 then (floor1 + remainder, floor2)
  else (floor1, floor2 + remainder)

/-- The normalizer as the specification words it: scale proportionally to
100, floor both, and award the entire remainder to the side with the
smaller raw value, tie to the away side.  Stated only to be compared with
the implementations above. -/
def specNormalizePair (a b : ℚ) : ℤ × ℤ :=
  let a' := a / (a + b) * 100
  let b' := b / (a + b) * 100
  let fa := ⌊a'⌋
  let fb := ⌊b'⌋
  let rem := 100 - (fa + fb)
  if a ≤ b then (fa + rem, fb) else (fa, fb + rem)

/-- The Polymarket side of a game dict (`game['polymarket']`). -/
structure PolyQuote where
  raw_away : Option ℚ
  raw_home : Option ℚ
  away : Option ℚ
  home : Option ℚ
  away_market_id : Option String := none
  home_market_id : Option String := none
  market_id : Option String := none
  url : String := ""
deriving DecidableEq

/-- The Kalshi side of a game dict (`game['kalshi']`). -/
structure KalshiQuote where
  raw_away : Option ℚ
  raw_home : Option ℚ
  away : Option ℚ
  home : Option ℚ
  away_ticker : Option String := none
  home_ticker : Option String := none
  away_market_id : Option String := none
  home_market_id : Option String := none
  url : String := ""
deriving DecidableEq

/-- A game record as consumed by `PaperTradingSystem.execute_arb`. -/
structure Game where
  polymarket : Option PolyQuote
  kalshi : Option KalshiQuote
  away_team : Option String := none
  home_team : Option String := none
  away_code : Option String := none
  home_code : Option String := none
  sport : Option String := none
deriving DecidableEq

/-- `POLY_FEE` of `paper_trading.py`. -/
def POLY_FEE : ℚ := 2/100

/-- `KALSHI_FEE` of `paper_trading.py`. -/
def KALSHI_FEE : ℚ := 7/100

/-- `SLIPPAGE_ESTIMATE` of `paper_trading.py`. -/
def SLIPPAGE_ESTIMATE : ℚ := 5/1000

/-- `LIQUIDITY_DISCOUNT` of `paper_trading.py`. -/
def LIQUIDITY_DISCOUNT : ℚ := 1/100

/-- Environment-variable configuration of `PaperTradingSystem.execute_arb`:
`PAPER_TRADING_BET_AMOUNT` and `PAPER_TRADING_MIN_ROI`. -/
structure PaperCfg where
  target_units : ℚ := 100
  min_roi : ℚ := 0
deriving DecidableEq

/-- The duplicate-trade check of both systems: some bet with this id has
status `pending` or `locked`. -/
def hasOpenTrade (bets : List Trade) (gid : String) : Bool :=
  bets.any (fun b => b.id == gid && (b.status == .pending || b.status == .locked))

/-- The away-leg venue selection of `PaperTradingSystem.execute_arb`
(lines 96-120): the venue with the lower effective (fee- and
slippage-inflated) price wins; ties go to Kalshi. -/
def paperBestAway (poly : PolyQuote) (kalshi : KalshiQuote) (g : Game)
    (poly_away kalshi_away : ℚ) : Leg :=
  let poly_away_eff := poly_away * (1 + POLY_FEE + SLIPPAGE_ESTIMATE)
  let kalshi_away_eff := kalshi_away * (1 + KALSHI_FEE + SLIPPAGE_ESTIMATE)
  if poly_away_eff < kalshi_away_eff then
    { platform := "Polymarket", price := poly_away, eff := poly_away_eff,
      team := g.away_team.getD "Away", code := g.away_code,
      market_id := pyOr poly.away_market_id poly.market_id,
      url := poly.url, fee_rate := POLY_FEE }
  else
    { platform := "Kalshi", price := kalshi_away, eff := kalshi_away_eff,
      team := g.away_team.getD "Away", code := g.away_code,
      market_id := kalshi.away_ticker,
      url := kalshi.url, fee_rate := KALSHI_FEE }

/-- The home-leg venue selection of `PaperTradingSystem.execute_arb`
(lines 122-147). -/
def paperBestHome (poly : PolyQuote) (kalshi : KalshiQuote) (g : Game)
    (poly_home kalshi_home : ℚ) : Leg :=
  let poly_home_eff := poly_home * (1 + POLY_FEE + SLIPPAGE_ESTIMATE)
  let kalshi_home_eff := kalshi_home * (1 + KALSHI_FEE + SLIPPAGE_ESTIMATE)
  if poly_home_eff < kalshi_home_eff then
    { platform := "Polymarket", price := poly_home, eff := poly_home_eff,
      team := g.home_team.getD "Home", code := g.home_code,
      market_id := pyOr poly.home_market_id poly.market_id,
      url := poly.url, fee_rate := POLY_FEE }
  else
    { platform := "Kalshi", price := kalshi_home, eff := kalshi_home_eff,
      team := g.home_team.getD "Home", code := g.home_code,
      market_id := kalshi.home_ticker,
      url := kalshi.url, fee_rate := KALSHI_FEE }

/-- The dynamic sizing of `PaperTradingSystem.execute_arb`
(lines 173-187): full size for a perfect arb, half for a near arb, 0.3 for
a partial one, with a liquidity discount above 200 units. -/
def paperUnitsFor (cfg : PaperCfg) (total_cost_per_unit : ℚ) : ℚ :=
  let units0 :=
    if total_cost_per_unit < 100 then cfg.target_units
    else if 100 ≤ total_cost_per_unit ∧ total_cost_per_unit ≤ 105 then
      cfg.target_units * (1/2)
    else cfg.target_units * (3/10)
  if 200 < units0 then units0 * (1 - LIQUIDITY_DISCOUNT) else units0

/-- The arb-quality label attached to the trade (lines 173-182). -/
def paperArbTypeFor (total_cost_per_unit : ℚ) : String :=
  if total_cost_per_unit < 100 then "perfect"
  else if 100 ≤ total_cost_per_unit ∧ total_cost_per_unit ≤ 105 then "near"
  else "partial"

/-- `total_cost_usd = (cost_cents / 100) * quantity` (line 194). -/
def paperCost (cfg : PaperCfg) (total_cost_per_unit : ℚ) : ℚ :=
  total_cost_per_unit / 100 * paperUnitsFor cfg total_cost_per_unit

/-- `profit_usd = (profit_cents / 100) * quantity` (line 195). -/
def paperProfit (cfg : PaperCfg) (total_cost_per_unit : ℚ) : ℚ :=
  (100 - total_cost_per_unit) / 100 * paperUnitsFor cfg total_cost_per_unit

/-- `roi_percent` (line 198), zero when the cost is not positive. -/
def paperRoi (cfg : PaperCfg) (total_cost_per_unit : ℚ) : ℚ :=
  if 0 < paperCost cfg total_cost_per_unit then
    paperProfit cfg total_cost_per_unit / paperCost cfg total_cost_per_unit * 100
  else 0

/-- The per-leg cost enrichment (lines 226-232). -/
def paperEnrichLeg (quantity : ℚ) (leg : Leg) : Leg :=
  let leg_cost_cents := leg.eff * quantity
  let leg_price_cents := leg.price * quantity
  { leg with
    cost_usd := leg_cost_cents / 100
    fee_usd := (leg_cost_cents - leg_price_cents) / 100
    payout_usd := quantity * 1
    slippage_usd := leg.price * SLIPPAGE_ESTIMATE * quantity / 100 }

/-- The trade record built by the paper success path (lines 235-254). -/
def paperMkTrade (cfg : PaperCfg) (g : Game) (now : ℚ) (best_away best_home : Leg) :
    Trade :=
  let total := best_away.eff + best_home.eff
  let quantity := paperUnitsFor cfg total
  let ba := paperEnrichLeg quantity best_away
  let bh := paperEnrichLeg quantity best_home
  { id := pyStr g.away_code ++ "@" ++ pyStr g.home_code
    game := pyStr g.away_team ++ " vs " ++ pyStr g.home_team
    sport := g.sport.getD "unknown"
    timestamp := now
    legs := [ba, bh]
    quantity := quantity
    cost := paperCost cfg total
    payout := quantity * 1
    profit := paperProfit cfg total
    roi_percent := paperRoi cfg total
    status := .pending
    settled_amount := 0
    realized_profit := 0
    fees_total_usd := ba.fee_usd + bh.fee_usd
    slippage_total_usd := ba.slippage_usd + bh.slippage_usd
    arb_type := paperArbTypeFor total
    total_cost_per_unit := total
    bet_amount_config := cfg.target_units }

/-- `PaperTradingSystem.execute_arb`.  Returns the new state together with
either the executed trade or the rejection reason; the state is returned
unchanged on every rejection path. -/
def paperExecuteArb (cfg : PaperCfg) (st : PaperState) (g : Game) (now : ℚ) :
    PaperState × Except String Trade :=
  match g.polymarket, g.kalshi with
  | some poly, some kalshi =>
    match poly.raw_away <|> poly.away, poly.raw_home <|> poly.home,
          kalshi.raw_away <|> kalshi.away, kalshi.raw_home <|> kalshi.home with
    | some poly_away, some poly_home, some kalshi_away, some kalshi_home =>
      if optFalsy g.away_code || optFalsy g.home_code then
        (st, .error "Missing team codes")
      else
        let best_away := paperBestAway poly kalshi g poly_away kalshi_away
        let best_home := paperBestHome poly kalshi g poly_home kalshi_home
        if best_away.price ≤ 0 ∨ best_home.price ≤ 0 then
          (st, .error "Invalid odds (zero price)")
        else
          if ¬(best_away.eff + best_home.eff < 100 ∨
               (100 ≤ best_away.eff + best_home.eff ∧
                best_away.eff + best_home.eff ≤ 105) ∨
               3 < |best_away.price - kalshi_away| ∨
               3 < |best_home.price - kalshi_home|) then
            (st, .error "No profitable arb opportunity")
          else
            if paperRoi cfg (best_away.eff + best_home.eff) ≤ max cfg.min_roi (-10) then
              (st, .error "ROI below threshold")
            else if st.balance < paperCost cfg (best_away.eff + best_home.eff) then
              (st, .error "Insufficient balance")
            else
              if hasOpenTrade st.bets (pyStr g.away_code ++ "@" ++ pyStr g.home_code) then
                (st, .error "Market already traded")
              else
                ({ st with
                     bets := st.bets ++ [paperMkTrade cfg g now best_away best_home],
                     balance := st.balance - paperCost cfg (best_away.eff + best_home.eff) },
                 .ok (paperMkTrade cfg g now best_away best_home))
    | _, _, _, _ => (st, .error "Missing odds")
  | _, _ => (st, .error "Missing platform data for arbitrage")

/-- Risk-control configuration of `RealTradingSystem` (constructor plus the
`LIVE_TRADING_BET_AMOUNT` / `LIVE_TRADING_MIN_ROI` environment variables). -/
structure RealCfg where
  daily_loss_limit : ℚ := 500
  max_position_size : ℚ := 1000
  max_daily_trades : Nat := 10
  target_units : ℚ := 100
  min_roi : ℚ := 0
deriving DecidableEq

/-- The normalized risk detail consumed by `RealTradingSystem.execute_arb`
(the output of `_normalize_risk_details` on `game['riskFreeArb']`). -/
structure RiskDetail where
  bestAwayFrom : Option String := none
  bestHomeFrom : Option String := none
  bestAwayPrice : Option ℚ := none
  bestHomePrice : Option ℚ := none
  bestAwayEffective : Option ℚ := none
  bestHomeEffective : Option ℚ := none
  totalCost : Option ℚ := none
  edge : Option ℚ := none
  roiPercent : Option ℚ := none
deriving DecidableEq

/-- A game record as consumed by `RealTradingSystem.execute_arb`. -/
structure RealGame where
  risk_detail : Option RiskDetail
  polymarket : Option PolyQuote
  kalshi : Option KalshiQuote
  away_team : Option String := none
  home_team : Option String := none
  away_code : Option String := none
  home_code : Option String := none
  sport : Option String := none
deriving DecidableEq

/-- Result of a venue client `place_order` call as used by
`_place_leg_order`: `{success, order_id, status}`. -/
structure OrderResult where
  success : Bool
  order_id : Option String := none
  order_status : Option String := none
deriving DecidableEq

/-- The venue-client oracle: outcomes of the Polymarket/Kalshi
`place_order` and `cancel_order` calls (arguments: market id, amount,
price), and the outcome of the post-placement `save_data` call. -/
structure VenueEnv where
  polyPlace : String → ℚ → ℚ → OrderResult
  kalshiPlace : String → ℚ → ℚ → OrderResult
  polyCancel : String → Bool
  kalshiCancel : String → Bool
  saveOk : Bool

/-- One outbound venue call recorded by the model. -/
inductive VenueAction
  | placeOrder (platform : String) (market_id : String)
  | cancelOrder (platform : String) (order_id : String)
deriving DecidableEq

/-- Whether an action is a cancellation. -/
def VenueAction.isCancel : VenueAction → Bool
  | .cancelOrder _ _ => true
  | _ => false

/-- `RealTradingSystem._record_error`: append the error and keep only the
last 100 entries. -/
def recordError (st : RealState) (trade_id error : String) : RealState :=
  let es := st.errors ++ [⟨trade_id, error⟩]
  { st with errors := es.drop (es.length - 100) }

/-- `RealTradingSystem._check_risk_controls`: lazily reset the daily
counters when the stored reset date differs from today, then check the
daily trade count, position size, daily loss and balance, in that order.
The (possibly reset) state is returned even on rejection. -/
def checkRiskControls (cfg : RealCfg) (today : String) (st : RealState)
    (total_cost : ℚ) : RealState × Bool :=
  let st :=
    if st.last_daily_reset_date ≠ today then
      { st with daily_loss := 0, daily_trades := [], last_daily_reset_date := today }
    else st
  let daily_trades := st.daily_trades.filter (fun t => t.date == today)
  if cfg.max_daily_trades ≤ daily_trades.length then (st, false)
  else if cfg.max_position_size < total_cost then (st, false)
  else if cfg.daily_loss_limit ≤ st.daily_loss then (st, false)
  else if st.balance < total_cost then (st, false)
  else (st, true)

/-- `RealTradingSystem._place_leg_order`: returns the state (errors may be
recorded), the venue calls made, and on success the leg updated with the
returned order id and status. -/
def placeLegOrder (env : VenueEnv) (st : RealState) (trade_id : String)
    (leg : Leg) (quantity : ℚ) : RealState × List VenueAction × Option Leg :=
  if optFalsy leg.market_id then
    (recordError st trade_id "Missing market ID", [], none)
  else
    let market_id := leg.market_id.getD ""
    let price := leg.price / 100
    if leg.platform == "Polymarket" then
      let r := env.polyPlace market_id quantity price
      if r.success then
        (st, [.placeOrder "Polymarket" market_id],
         some { leg with order_id := r.order_id, order_status := r.order_status })
      else
        (recordError st trade_id "Order failed", [.placeOrder "Polymarket" market_id], none)
    else if leg.platform == "Kalshi" then
      let r := env.kalshiPlace market_id quantity price
      if r.success then
        (st, [.placeOrder "Kalshi" market_id],
         some { leg with order_id := r.order_id, order_status := r.order_status })
      else
        (recordError st trade_id "Order failed", [.placeOrder "Kalshi" market_id], none)
    else
      (recordError st trade_id "Unknown platform", [], none)

/-- `RealTradingSystem._cancel_leg_order`: best-effort, fire-and-forget;
nothing happens when the leg has no truthy order id or an unknown
platform, and the cancellation result is ignored. -/
def cancelLegOrder (leg : Leg) : List VenueAction :=
  if optFalsy leg.order_id then []
  else
    let oid := leg.order_id.getD ""
    if leg.platform == "Polymarket" then [.cancelOrder "Polymarket" oid]
    else if leg.platform == "Kalshi" then [.cancelOrder "Kalshi" oid]
    else []

/-- The away leg record built by `RealTradingSystem.execute_arb`
(lines 729-755), including the market-id fallback chain. -/
def realBestAwayLeg (d : RiskDetail) (g : RealGame) (poly : PolyQuote)
    (kalshi : KalshiQuote) : Leg :=
  { platform := pyStr d.bestAwayFrom
    price := d.bestAwayPrice.getD 0
    eff := d.bestAwayEffective.getD 0
    team := g.away_team.getD "Away"
    code := g.away_code
    market_id :=
      if d.bestAwayFrom = some "Polymarket" then pyOr poly.away_market_id poly.market_id
      else pyOr kalshi.away_ticker kalshi.away_market_id
    url := if d.bestAwayFrom = some "Polymarket" then poly.url else kalshi.url }

/-- The home leg record built by `RealTradingSystem.execute_arb`
(lines 735-765). -/
def realBestHomeLeg (d : RiskDetail) (g : RealGame) (poly : PolyQuote)
    (kalshi : KalshiQuote) : Leg :=
  { platform := pyStr d.bestHomeFrom
    price := d.bestHomePrice.getD 0
    eff := d.bestHomeEffective.getD 0
    team := g.home_team.getD "Home"
    code := g.home_code
    market_id :=
      if d.bestHomeFrom = some "Polymarket" then pyOr poly.home_market_id poly.market_id
      else pyOr kalshi.home_ticker kalshi.home_market_id
    url := if d.bestHomeFrom = some "Polymarket" then poly.url else kalshi.url }

/-- The trade record of the live success path (lines 776-790), with the
order ids collected by `_place_leg_order`. -/
def realMkTrade (cfg : RealCfg) (d : RiskDetail) (g : RealGame) (now : ℚ)
    (away_leg home_leg : Leg) : Trade :=
  { id := pyStr g.away_code ++ "@" ++ pyStr g.home_code
    game := pyStr g.away_team ++ " vs " ++ pyStr g.home_team
    sport := g.sport.getD "unknown"
    timestamp := now
    legs := [away_leg, home_leg]
    quantity := cfg.target_units
    cost := d.totalCost.getD 0 / 100 * cfg.target_units
    payout := cfg.target_units * 1
    profit := d.edge.getD 0 / 100 * cfg.target_units
    roi_percent := d.roiPercent.getD 0
    status := .pending
    order_ids := [(away_leg.platform, away_leg.order_id),
                  (home_leg.platform, home_leg.order_id)] }

/-- The post-placement ledger commit (lines 805-814): append the trade,
debit the balance, record a same-day trade-count entry. -/
def realAppendTrade (today : String) (total_cost_usd : ℚ) (trade : Trade)
    (s : RealState) : RealState :=
  { s with
    bets := s.bets ++ [trade]
    balance := s.balance - total_cost_usd
    daily_trades := s.daily_trades ++ [⟨today, trade.id⟩] }

/-- The rollback performed when `save_data` raises (lines 819-822): pop
the trade and credit the balance back, but only when the last bet carries
the expected id. -/
def realRollback (game_id : String) (total_cost_usd : ℚ) (s : RealState) : RealState :=
  if s.bets ≠ [] ∧ (s.bets.getLast?.map Trade.id) = some game_id then
    { s with bets := s.bets.dropLast, balance := s.balance + total_cost_usd }
  else s

/-- `RealTradingSystem.execute_arb`.  `today` is the current UTC date
string and `now` the current timestamp in seconds.  Returns the new
state, the trace of venue calls, and either the executed trade or the
rejection reason. -/
def realExecuteArb (cfg : RealCfg) (env : VenueEnv) (today : String) (now : ℚ)
    (st : RealState) (g : RealGame) : RealState × List VenueAction × Except String Trade :=
  let rd : Option RiskDetail :=
    match g.risk_detail with
    | some d =>
      if d.bestAwayPrice = none ∨ d.bestHomePrice = none ∨
         d.bestAwayEffective = none ∨ d.bestHomeEffective = none ∨
         d.totalCost = none ∨ d.edge = none then none
      else some d
    | none => none
  match rd with
  | none => (st, [], .error "No risk-free arbitrage opportunity")
  | some d =>
    if d.bestAwayPrice.getD 0 ≤ 0 ∨ d.bestHomePrice.getD 0 ≤ 0 then
      (st, [], .error "Invalid odds (zero price detected)")
    else if ¬(0 < d.edge.getD 0) then
      (st, [], .error "No risk-free arbitrage opportunity")
    else
      match g.polymarket, g.kalshi with
      | none, _ => (st, [], .error "Missing platform data")
      | _, none => (st, [], .error "Missing platform data")
      | some poly, some kalshi =>
        let quantity := cfg.target_units
        let total_cost_usd := d.totalCost.getD 0 / 100 * quantity
        let roi_percent := d.roiPercent.getD 0
        if roi_percent ≤ cfg.min_roi then
          (st, [], .error "ROI below threshold")
        else
          let rc := checkRiskControls cfg today st total_cost_usd
          let st1 := rc.1
          if rc.2 = false then (st1, [], .error "Risk control rejection")
          else
            let game_id := pyStr g.away_code ++ "@" ++ pyStr g.home_code
            if hasOpenTrade st1.bets game_id then
              (st1, [], .error "Market already traded")
            else
              let away_platform := d.bestAwayFrom
              let home_platform := d.bestHomeFrom
              if away_platform = home_platform then
                (st1, [], .error "Invalid arbitrage: both legs on same platform")
              else
                let away_market_id :=
                  if away_platform = some "Polymarket" then
                    pyOr poly.away_market_id poly.market_id
                  else pyOr kalshi.away_ticker kalshi.away_market_id
                let home_market_id :=
                  if home_platform = some "Polymarket" then
                    pyOr poly.home_market_id poly.market_id
                  else pyOr kalshi.home_ticker kalshi.home_market_id
                if optFalsy away_market_id then
                  (st1, [], .error "Missing market ID (away leg)")
                else if optFalsy home_market_id then
                  (st1, [], .error "Missing market ID (home leg)")
                else
                  if quantity ≤ 0 then
                    (st1, [], .error "Invalid quantity")
                  else if ¬(0 < (realBestAwayLeg d g poly kalshi).price ∧
                            (realBestAwayLeg d g poly kalshi).price < 1) then
                    (st1, [], .error "Invalid away price")
                  else if ¬(0 < (realBestHomeLeg d g poly kalshi).price ∧
                            (realBestHomeLeg d g poly kalshi).price < 1) then
                    (st1, [], .error "Invalid home price")
                  else
                    let r1 := placeLegOrder env st1 game_id
                                (realBestAwayLeg d g poly kalshi) quantity
                    match r1.2.2 with
                    | none => (r1.1, r1.2.1, .error "Failed to place away leg order")
                    | some away_leg =>
                      let r2 := placeLegOrder env r1.1 game_id
                                  (realBestHomeLeg d g poly kalshi) quantity
                      match r2.2.2 with
                      | none =>
                        (r2.1, r1.2.1 ++ r2.2.1 ++ cancelLegOrder away_leg,
                         .error "Failed to place home leg order (away leg cancelled)")
                      | some home_leg =>
                        let st2 := realAppendTrade today total_cost_usd
                                     (realMkTrade cfg d g now away_leg home_leg) r2.1
                        if env.saveOk then
                          (st2, r1.2.1 ++ r2.2.1,
                           .ok (realMkTrade cfg d g now away_leg home_leg))
                        else
                          (recordError (realRollback game_id total_cost_usd st2)
                             game_id "Failed to save trade",
                           r1.2.1 ++ r2.2.1, .error "Failed to save trade")

/-- A concrete leg with a missing market id. -/
def c10Leg : Leg :=
  { platform := "Polymarket", price := 1/2, eff := 1/2, team := "Alpha",
    code := some "ALP", market_id := none }

/-- A concrete pending bet holding `c10Leg`. -/
def c10Bet : Trade :=
  { id := "ALP@BET", timestamp := 0, legs := [c10Leg], quantity := 100,
    cost := 50, payout := 100, profit := 50, roi_percent := 100, status := .pending }

/-- A concrete paper state holding `c10Bet`. -/
def c10State : PaperState := ⟨1000, 1000, [c10Bet]⟩

/-- A settlement oracle that reports every market resolved. -/
def c10Fn : CheckFn := fun _ _ => ⟨true, some "ALP"⟩

/-- A concrete game whose best legs cost exactly `97.5` per unit: away on
Polymarket (`40 × 1.025 = 41`), home on Kalshi
(`2260/43 × 1.075 = 56.5`). -/
def c9Game : Game :=
  { polymarket := some
      { raw_away := some 40, raw_home := some 60, away := none, home := none,
        away_market_id := some "pm-away", home_market_id := some "pm-home",
        market_id := some "pm" }
    kalshi := some
      { raw_away := some 60, raw_home := some (2260/43), away := none, home := none,
        away_ticker := some "kx-away", home_ticker := some "kx-home" }
    away_team := some "Alpha", home_team := some "Beta"
    away_code := some "ALP", home_code := some "BET", sport := some "test" }

/-- A settlement oracle under which both legs of `c9Game`'s trade resolve
and only the away leg (code `ALP`) wins. -/
def c9Check : CheckFn :=
  fun _ market_id =>
    if market_id == "pm-away" then ⟨true, some "ALP"⟩ else ⟨true, some "XXX"⟩

/-- The paper execution of `c9Game` from a fresh 10000 balance with the
default configuration (target 100 units, minimum ROI 0). -/
def c9Exec : PaperState × Except String Trade :=
  paperExecuteArb {} ⟨10000, 10000, []⟩ c9Game 0

/-- The state after the reconciler settles `c9Exec`'s trade. -/
def c9Settled : PaperState := paperUpdateSettlements c9Check c9Exec.1

/-- A concrete game in which Polymarket quotes the cheaper effective
price on both outcomes (`40 × 1.025 = 41` beats `60 × 1.075 = 64.5`). -/
def c3Game : Game :=
  { polymarket := some
      { raw_away := some 40, raw_home := some 40, away := none, home := none,
        away_market_id := some "pm-a", home_market_id := some "pm-h",
        market_id := some "pm" }
    kalshi := some
      { raw_away := some 60, raw_home := some 60, away := none, home := none,
        away_ticker := some "kx-a", home_ticker := some "kx-h" }
    away_team := some "Alpha", home_team := some "Beta"
    away_code := some "ALP", home_code := some "BET", sport := some "test" }

/-- A concrete game for the live system whose normalized risk detail puts
both legs on the same platform. -/
def c3RealGame : RealGame :=
  { risk_detail := some
      { bestAwayFrom := some "Polymarket", bestHomeFrom := some "Polymarket",
        bestAwayPrice := some (1/2), bestHomePrice := some (2/5),
        bestAwayEffective := some (41/80), bestHomeEffective := some (41/100),
        totalCost := some 90, edge := some 10, roiPercent := some 10 }
    polymarket := some
      { raw_away := some (1/2), raw_home := some (2/5), away := none, home := none,
        away_market_id := some "pm-a", home_market_id := some "pm-h",
        market_id := some "pm" }
    kalshi := some
      { raw_away := some (3/5), raw_home := some (1/2), away := none, home := none,
        away_ticker := some "kx-a", home_ticker := some "kx-h" }
    away_team := some "Alpha", home_team := some "Beta"
    away_code := some "ALP", home_code := some "BET", sport := some "test" }

/-- A venue oracle whose placements always succeed and whose saves
succeed. -/
def happyEnv : VenueEnv :=
  { polyPlace := fun _ _ _ => { success := true, order_id := some "po-1", order_status := some "open" }
    kalshiPlace := fun _ _ _ => { success := true, order_id := some "ko-1", order_status := some "open" }
    polyCancel := fun _ => true
    kalshiCancel := fun _ => true
    saveOk := true }

/-- A fresh live-trading state with balance 10000. -/
def freshRealState : RealState :=
  { balance := 10000, initial_balance := 10000, bets := [], daily_loss := 0,
    daily_trades := [], last_daily_reset_date := "2026-01-01", errors := [] }

/-- A concrete game with a zero raw away price on Polymarket. -/
def c8Game : Game :=
  { polymarket := some
      { raw_away := some 0, raw_home := some 50, away := none, home := none,
        market_id := some "pm" }
    kalshi := some
      { raw_away := some 55, raw_home := some 48, away := none, home := none,
        away_ticker := some "kx-a", home_ticker := some "kx-h" }
    away_team := some "Alpha", home_team := some "Beta"
    away_code := some "ALP", home_code := some "BET", sport := some "test" }

/-- First leg (unresolved in the C4 scenario). -/
def c4Leg1 : Leg :=
  { platform := "Kalshi", price := 50, eff := 215/4, team := "Alpha",
    code := some "ALP", market_id := some "m1" }

/-- Second leg (resolved and winning in the C4 scenario). -/
def c4Leg2 : Leg :=
  { platform := "Polymarket", price := 50, eff := 205/4, team := "Beta",
    code := some "BET", market_id := some "m2" }

/-- A pending two-leg trade placed at time 0. -/
def c4Trade : Trade :=
  { id := "ALP@BET", timestamp := 0, legs := [c4Leg1, c4Leg2], quantity := 100,
    cost := 90, payout := 100, profit := 10, roi_percent := 100/9,
    status := .pending }

/-- A live-trading state holding only `c4Trade`. -/
def c4State : RealState :=
  { balance := 1000, initial_balance := 1000, bets := [c4Trade], daily_loss := 0,
    daily_trades := [], last_daily_reset_date := "2026-01-01", errors := [] }

/-- An oracle reporting the second leg (`m2`) resolved with its winner and
the first leg (`m1`) unresolved. -/
def c4Check : CheckFn :=
  fun _ market_id => if market_id == "m2" then ⟨true, some "BET"⟩ else ⟨false, none⟩

/-- Like `c4Check` but with the orders swapped: the first leg (`w1`)
resolved and winning, the second (`w2`) unresolved. -/
def c4wCheck : CheckFn :=
  fun _ market_id => if market_id == "w1" then ⟨true, some "ALP"⟩ else ⟨false, none⟩

/-- First leg (resolved, winning) of the C4 witness trade. -/
def c4wLeg1 : Leg :=
  { platform := "Kalshi", price := 50, eff := 215/4, team := "Alpha",
    code := some "ALP", market_id := some "w1" }

/-- Second leg (unresolved) of the C4 witness trade. -/
def c4wLeg2 : Leg :=
  { platform := "Polymarket", price := 50, eff := 205/4, team := "Beta",
    code := some "BET", market_id := some "w2" }

/-- A pending two-leg trade placed at time 0, first leg resolvable. -/
def c4wTrade : Trade :=
  { id := "ALP@BET", timestamp := 0, legs := [c4wLeg1, c4wLeg2], quantity := 100,
    cost := 90, payout := 100, profit := 10, roi_percent := 100/9,
    status := .pending }

/-- A live-trading state holding only `c4wTrade`. -/
def c4wState : RealState :=
  { balance := 1000, initial_balance := 1000, bets := [c4wTrade], daily_loss := 0,
    daily_trades := [], last_daily_reset_date := "2026-01-01", errors := [] }

/-- An open (pending) trade for the outcome pair `ALP@BET`. -/
def c2Bet : Trade :=
  { id := "ALP@BET", timestamp := 0, legs := [], quantity := 100, cost := 90,
    payout := 100, profit := 10, roi_percent := 10, status := .pending }

/-- A live state already holding the open trade `c2Bet`. -/
def c2RealState : RealState :=
  { balance := 10000, initial_balance := 10000, bets := [c2Bet], daily_loss := 0,
    daily_trades := [], last_daily_reset_date := "2026-01-01", errors := [] }

/-- A paper state already holding the open trade `c2Bet`. -/
def c2PaperState : PaperState := ⟨10000, 10000, [c2Bet]⟩

/-- Polymarket quote used by the C1/C6 witnesses. -/
def c1Poly : PolyQuote :=
  { raw_away := some (1/2), raw_home := some (2/5), away := none, home := none,
    away_market_id := some "pm-a", home_market_id := some "pm-h",
    market_id := some "pm" }

/-- Kalshi quote used by the C1/C6 witnesses. -/
def c1Kalshi : KalshiQuote :=
  { raw_away := some (3/5), raw_home := some (1/2), away := none, home := none,
    away_ticker := some "kx-a", home_ticker := some "kx-h" }

/-- Risk detail with the away leg on Polymarket and the home leg on
Kalshi, costing 90 with edge 10. -/
def c1Detail : RiskDetail :=
  { bestAwayFrom := some "Polymarket", bestHomeFrom := some "Kalshi",
    bestAwayPrice := some (1/2), bestHomePrice := some (2/5),
    bestAwayEffective := some (41/80), bestHomeEffective := some (41/100),
    totalCost := some 90, edge := some 10, roiPercent := some 10 }

/-- Game used by the C1/C6 witnesses. -/
def c1Game : RealGame :=
  { risk_detail := some c1Detail, polymarket := some c1Poly, kalshi := some c1Kalshi
    away_team := some "Alpha", home_team := some "Beta"
    away_code := some "ALP", home_code := some "BET", sport := some "test" }

/-- A venue oracle whose Polymarket placements succeed and whose Kalshi
placements fail. -/
def c1Env : VenueEnv :=
  { polyPlace := fun _ _ _ => { success := true, order_id := some "po-1", order_status := some "open" }
    kalshiPlace := fun _ _ _ => { success := false }
    polyCancel := fun _ => true
    kalshiCancel := fun _ => true
    saveOk := true }

/-- The away leg as placed by `c1Env` (order id `po-1`). -/
def c1AwayLeg : Leg :=
  { platform := "Polymarket", price := 1/2, eff := 41/80, team := "Alpha",
    code := some "ALP", market_id := some "pm-a", url := "",
    order_id := some "po-1", order_status := some "open" }

/-- A venue oracle whose placements both succeed but whose persistence
step fails. -/
def c6Env : VenueEnv :=
  { polyPlace := fun _ _ _ => { success := true, order_id := some "po-1", order_status := some "open" }
    kalshiPlace := fun _ _ _ => { success := true, order_id := some "ko-1", order_status := some "open" }
    polyCancel := fun _ => true
    kalshiCancel := fun _ => true
    saveOk := false }

/-- The home leg as placed by `c6Env` (order id `ko-1`). -/
def c6HomeLeg : Leg :=
  { platform := "Kalshi", price := 2/5, eff := 41/100, team := "Beta",
    code := some "BET", market_id := some "kx-h", url := "",
    order_id := some "ko-1", order_status := some "open" }

/-- A rejection result of `execute_arb` (either system). -/
def execFailed : Except String Trade → Bool
  | .ok _ => false
  | .error _ => true

/-- Number of non-terminal (`pending`/`locked`) trades with a given id. -/
def openCount (bets : List Trade) (gid : String) : Nat :=
  (bets.filter (fun b => b.id == gid && (b.status == .pending || b.status == .locked))).length

section SettlementLemmas

/-- A settled bet is left untouched by one real reconciler pass. -/
theorem realSettleBet_settled (f : CheckFn) (now : ℚ) (b : Trade)
    (hb : b.status = .settled) : realSettleBet f now b = (b, 0, 0) := by
  simp [realSettleBet, hb]

/-- A settled bet is left untouched by one paper reconciler pass. -/
theorem paperSettleBet_settled (f : CheckFn) (b : Trade)
    (hb : b.status = .settled) : paperSettleBet f b = (b, 0) := by
  simp [paperSettleBet, hb]

/-- A state all of whose bets are settled is a fixed point of the real
reconciler. -/
theorem realUpdateSettlements_fixed (f : CheckFn) (now : ℚ) (st : RealState)
    (hst : ∀ t ∈ st.bets, t.status = .settled) :
    realUpdateSettlements f now st = st := by
  have hmap : st.bets.map (fun b => (realSettleBet f now b).1) = st.bets := by
    conv_rhs => rw [← List.map_id st.bets]
    exact List.map_congr_left (fun t ht => by rw [realSettleBet_settled f now t (hst t ht)]; rfl)
  have hsum1 : (st.bets.map (fun b => (realSettleBet f now b).2.1)).sum = 0 := by
    apply List.sum_eq_zero
    intro x hx
    obtain ⟨t, ht, rfl⟩ := List.mem_map.mp hx
    rw [realSettleBet_settled f now t (hst t ht)]
  have hsum2 : (st.bets.map (fun b => (realSettleBet f now b).2.2)).sum = 0 := by
    apply List.sum_eq_zero
    intro x hx
    obtain ⟨t, ht, rfl⟩ := List.mem_map.mp hx
    rw [realSettleBet_settled f now t (hst t ht)]
  unfold realUpdateSettlements
  rw [hmap, hsum1, hsum2]
  simp

/-- A state all of whose bets are settled is a fixed point of the paper
reconciler. -/
theorem paperUpdateSettlements_fixed (f : CheckFn) (st : PaperState)
    (hst : ∀ t ∈ st.bets, t.status = .settled) :
    paperUpdateSettlements f st = st := by
  have hmap : st.bets.map (fun b => (paperSettleBet f b).1) = st.bets := by
    conv_rhs => rw [← List.map_id st.bets]
    exact List.map_congr_left (fun t ht => by rw [paperSettleBet_settled f t (hst t ht)]; rfl)
  have hsum : (st.bets.map (fun b => (paperSettleBet f b).2)).sum = 0 := by
    apply List.sum_eq_zero
    intro x hx
    obtain ⟨t, ht, rfl⟩ := List.mem_map.mp hx
    rw [paperSettleBet_settled f t (hst t ht)]
  unfold paperUpdateSettlements
  rw [hmap, hsum]
  simp

end SettlementLemmas

/-- C7: re-running the reconciler on an already-settled trade changes
neither the trade (status, settled_amount, realized_profit) nor the
balance: a settled bet is a fixed point of the per-bet settlement step of
both systems, and a state whose bets are all settled is unchanged by any
number of reconciler passes. -/
theorem settled_reconciler_idempotent (f : CheckFn) (now : ℚ) (b : Trade)
    (st : RealState) (stp : PaperState)
    (hb : b.status = .settled)
    (hst : ∀ t ∈ st.bets, t.status = .settled)
    (hstp : ∀ t ∈ stp.bets, t.status = .settled) :
    realSettleBet f now b = (b, 0, 0) ∧
    paperSettleBet f b = (b, 0) ∧
    (∀ n, (realUpdateSettlements f now)^[n] st = st) ∧
    (∀ n, (paperUpdateSettlements f)^[n] stp = stp) := by
  refine ⟨realSettleBet_settled f now b hb, paperSettleBet_settled f b hb, ?_, ?_⟩
  · exact fun n => Function.iterate_fixed (realUpdateSettlements_fixed f now st hst) n
  · exact fun n => Function.iterate_fixed (paperUpdateSettlements_fixed f stp hstp) n

/-- Witness for `settled_reconciler_idempotent`. -/
theorem settled_reconciler_idempotent_witness :
    (realSettleBet (fun _ _ => ⟨true, none⟩) 0
        { id := "X@Y", timestamp := 0, legs := [], quantity := 1, cost := 1,
          payout := 1, profit := 0, roi_percent := 0, status := .settled } =
      ({ id := "X@Y", timestamp := 0, legs := [], quantity := 1, cost := 1,
          payout := 1, profit := 0, roi_percent := 0, status := .settled }, 0, 0)) ∧
    (paperSettleBet (fun _ _ => ⟨true, none⟩)
        { id := "X@Y", timestamp := 0, legs := [], quantity := 1, cost := 1,
          payout := 1, profit := 0, roi_percent := 0, status := .settled } =
      ({ id := "X@Y", timestamp := 0, legs := [], quantity := 1, cost := 1,
          payout := 1, profit := 0, roi_percent := 0, status := .settled }, 0)) ∧
    (∀ n, (realUpdateSettlements (fun _ _ => ⟨true, none⟩) 0)^[n]
        ⟨100, 100, [], 0, [], "2026-01-01", []⟩ = ⟨100, 100, [], 0, [], "2026-01-01", []⟩) ∧
    (∀ n, (paperUpdateSettlements (fun _ _ => ⟨true, none⟩))^[n]
        ⟨100, 100, []⟩ = ⟨100, 100, []⟩) :=
  settled_reconciler_idempotent (fun _ _ => ⟨true, none⟩) 0 _ _ _
    rfl (by simp) (by simp)

/-- The resolved-leg count never exceeds the number of legs. -/
theorem scanLegs_count_le_length (f : CheckFn) (q : ℚ) (legs : List Leg) :
    (scanLegs f q legs).2.2 ≤ legs.length := by
  induction legs with
  | nil => simp [scanLegs]
  | cons leg rest ih =>
    simp only [scanLegs, List.length_cons]
    by_cases h : optFalsy leg.market_id
    · simp only [h, if_true]
      omega
    · simp only [h, Bool.false_eq_true, if_false]
      by_cases hr : (f leg.platform (leg.market_id.getD "")).resolved
      · simp only [hr, if_true]
        omega
      · simp only [hr, Bool.false_eq_true, if_false]
        omega

/-- A leg with a falsy market id is skipped, so the resolved-leg count
stays strictly below the number of legs. -/
theorem scanLegs_count_lt_length (f : CheckFn) (q : ℚ) (legs : List Leg)
    (l : Leg) (hl : l ∈ legs) (hf : optFalsy l.market_id = true) :
    (scanLegs f q legs).2.2 < legs.length := by
  induction legs with
  | nil => cases hl
  | cons leg rest ih =>
    simp only [scanLegs, List.length_cons]
    rcases List.mem_cons.mp hl with rfl | hmem
    · simp only [hf, if_true]
      have := scanLegs_count_le_length f q rest
      omega
    · by_cases h : optFalsy leg.market_id
      · simp only [h, if_true]
        have := ih hmem
        omega
      · simp only [h, Bool.false_eq_true, if_false]
        by_cases hr : (f leg.platform (leg.market_id.getD "")).resolved
        · simp only [hr, if_true]
          have := ih hmem
          omega
        · simp only [hr, Bool.false_eq_true, if_false]
          omega

/-- A pending bet with a falsy-market-id leg is a fixed point of the paper
per-bet settlement step. -/
theorem paperSettleBet_missing_market_id (f : CheckFn) (bet : Trade) (l : Leg)
    (hp : bet.status = .pending) (hl : l ∈ bet.legs)
    (hf : optFalsy l.market_id = true) :
    paperSettleBet f bet = (bet, 0) := by
  have hlt := scanLegs_count_lt_length f bet.quantity bet.legs l hl hf
  simp only [paperSettleBet, hp, if_true]
  have : ¬((scanLegs f bet.quantity bet.legs).1 = true ∧
      (scanLegs f bet.quantity bet.legs).2.2 = bet.legs.length) := by
    rintro ⟨-, h2⟩
    omega
  simp [this]

/-- The bets list after `n` paper reconciler passes is the `n`-fold image
of the per-bet settlement step. -/
theorem paperUpdateSettlements_iterate_bets (f : CheckFn) (st : PaperState) (n : ℕ) :
    ((paperUpdateSettlements f)^[n] st).bets =
      st.bets.map (fun b => (fun t => (paperSettleBet f t).1)^[n] b) := by
  induction n generalizing st with
  | zero => simp
  | succ n ih =>
    rw [Function.iterate_succ_apply, ih]
    simp only [paperUpdateSettlements, List.map_map]
    apply List.map_congr_left
    intro t _
    simp [Function.iterate_succ_apply]

/-- C10: a pending trade containing a leg whose market id is missing
(`None` or empty) is never settled by the paper reconciler: the per-bet
step returns it unchanged with zero payout, and it stays `pending` in
place under any number of reconciler passes. -/
theorem pending_bet_missing_market_id_never_settles (f : CheckFn)
    (st : PaperState) (bet : Trade) (l : Leg)
    (hp : bet.status = .pending) (hl : l ∈ bet.legs)
    (hf : optFalsy l.market_id = true) :
    paperSettleBet f bet = (bet, 0) ∧
    ∀ (n i : ℕ) (h : i < st.bets.length)
      (h2 : i < ((paperUpdateSettlements f)^[n] st).bets.length),
      st.bets.get ⟨i, h⟩ = bet →
      ((paperUpdateSettlements f)^[n] st).bets.get ⟨i, h2⟩ = bet := by
  have hfix := paperSettleBet_missing_market_id f bet l hp hl hf
  refine ⟨hfix, ?_⟩
  intro n i h h2 hget
  have hbets := paperUpdateSettlements_iterate_bets f st n
  rw [List.get_eq_getElem] at hget
  rw [List.get_eq_getElem, List.getElem_of_eq hbets h2, List.getElem_map, hget]
  exact Function.iterate_fixed (by rw [hfix]) n

/-- Witness for `pending_bet_missing_market_id_never_settles`. -/
theorem pending_bet_missing_market_id_never_settles_witness :
    (c10Bet.status = .pending ∧ c10Leg ∈ c10Bet.legs ∧ optFalsy c10Leg.market_id = true) ∧
    paperSettleBet c10Fn c10Bet = (c10Bet, 0) :=
  ⟨⟨rfl, by simp [c10Bet], rfl⟩,
   (pending_bet_missing_market_id_never_settles c10Fn c10State c10Bet c10Leg rfl
      (by simp [c10Bet]) rfl).1⟩

/-- C5 counterexample: on raw values `a = 60.5 > b = 39.5` the
football-Polymarket normalizer awards the remainder to the *larger* side,
producing `(61, 39)`, while the claimed smaller-side rule (followed by the
football-Kalshi normalizer) produces `(60, 40)`. -/
theorem normalizer_remainder_counterexample :
    polyNormalizePair (121/2) (79/2) = (61, 39) ∧
    specNormalizePair (121/2) (79/2) = (60, 40) ∧
    polyNormalizePair (121/2) (79/2) ≠ specNormalizePair (121/2) (79/2) := by
  refine ⟨by norm_num [polyNormalizePair], by norm_num [specNormalizePair], ?_⟩
  norm_num [polyNormalizePair, specNormalizePair]

/-- C5 (amended): for raw values `a, b ≥ 0` with `a + b > 0`, all three
normalizers output integers summing to exactly 100; the football-Kalshi
normalizer follows the smaller-raw-side remainder rule with ties to the
away side (it coincides with `specNormalizePair`), and its outputs are
non-negative, as are the football-Polymarket normalizer's (which awards
the remainder to the side with the larger floored value, ties to the
first argument); the esports normalizer floors the raw values without
proportional scaling, and its outputs are non-negative when both raw
values are at most 100. -/
theorem normalizer_amended (a b : ℚ) (ha : 0 ≤ a) (hb : 0 ≤ b) (hab : 0 < a + b) :
    kalshiNormalizePair a b = specNormalizePair a b ∧
    (kalshiNormalizePair a b).1 + (kalshiNormalizePair a b).2 = 100 ∧
    0 ≤ (kalshiNormalizePair a b).1 ∧ 0 ≤ (kalshiNormalizePair a b).2 ∧
    (polyNormalizePair a b).1 + (polyNormalizePair a b).2 = 100 ∧
    0 ≤ (polyNormalizePair a b).1 ∧ 0 ≤ (polyNormalizePair a b).2 ∧
    (esportsNormalizePair a b).1 + (esportsNormalizePair a b).2 = 100 ∧
    (a ≤ 100 → b ≤ 100 →
      0 ≤ (esportsNormalizePair a b).1 ∧ 0 ≤ (esportsNormalizePair a b).2) := by
  have hA0 : 0 ≤ a / (a + b) * 100 := by positivity
  have hB0 : 0 ≤ b / (a + b) * 100 := by positivity
  have hAB : a / (a + b) * 100 + b / (a + b) * 100 = 100 := by
    field_simp
    ring
  have hfa : ((⌊a / (a + b) * 100⌋ : ℤ) : ℚ) ≤ a / (a + b) * 100 := Int.floor_le _
  have hfb : ((⌊b / (a + b) * 100⌋ : ℤ) : ℚ) ≤ b / (a + b) * 100 := Int.floor_le _
  have hfa0 : 0 ≤ ⌊a / (a + b) * 100⌋ := Int.floor_nonneg.mpr hA0
  have hfb0 : 0 ≤ ⌊b / (a + b) * 100⌋ := Int.floor_nonneg.mpr hB0
  have hA100 : a / (a + b) * 100 ≤ 100 := by linarith
  have hB100 : b / (a + b) * 100 ≤ 100 := by linarith
  have hfa100 : ⌊a / (a + b) * 100⌋ ≤ 100 := by
    have : ((⌊a / (a + b) * 100⌋ : ℤ) : ℚ) ≤ 100 := le_trans hfa hA100
    exact_mod_cast this
  have hfb100 : ⌊b / (a + b) * 100⌋ ≤ 100 := by
    have : ((⌊b / (a + b) * 100⌋ : ℤ) : ℚ) ≤ 100 := le_trans hfb hB100
    exact_mod_cast this
  have hsum100 : ⌊a / (a + b) * 100⌋ + ⌊b / (a + b) * 100⌋ ≤ 100 := by
    have : ((⌊a / (a + b) * 100⌋ + ⌊b / (a + b) * 100⌋ : ℤ) : ℚ) ≤ 100 := by
      push_cast
      linarith
    exact_mod_cast this
  have ekal : kalshiNormalizePair a b =
      if a ≤ b then
        (⌊a / (a + b) * 100⌋ + (100 - (⌊a / (a + b) * 100⌋ + ⌊b / (a + b) * 100⌋)),
         ⌊b / (a + b) * 100⌋)
      else
        (⌊a / (a + b) * 100⌋,
         ⌊b / (a + b) * 100⌋ + (100 - (⌊a / (a + b) * 100⌋ + ⌊b / (a + b) * 100⌋))) := by
    simp only [kalshiNormalizePair, if_pos hab]
  have espec : specNormalizePair a b =
      if a ≤ b then
        (⌊a / (a + b) * 100⌋ + (100 - (⌊a / (a + b) * 100⌋ + ⌊b / (a + b) * 100⌋)),
         ⌊b / (a + b) * 100⌋)
      else
        (⌊a / (a + b) * 100⌋,
         ⌊b / (a + b) * 100⌋ + (100 - (⌊a / (a + b) * 100⌋ + ⌊b / (a + b) * 100⌋))) := by
    simp only [specNormalizePair]
  have epoly : polyNormalizePair a b =
      if ⌊b / (a + b) * 100⌋ ≤ ⌊a / (a + b) * 100⌋ then
        (⌊a / (a + b) * 100⌋ + (100 - (⌊a / (a + b) * 100⌋ + ⌊b / (a + b) * 100⌋)),
         ⌊b / (a + b) * 100⌋)
      else
        (⌊a / (a + b) * 100⌋,
         ⌊b / (a + b) * 100⌋ + (100 - (⌊a / (a + b) * 100⌋ + ⌊b / (a + b) * 100⌋))) := by
    simp only [polyNormalizePair, if_neg (not_le.mpr hab)]
  refine ⟨ekal.trans espec.symm, ?_, ?_, ?_, ?_, ?_, ?_, ?_, ?_⟩
  · rw [ekal]; split <;> simp <;> omega
  · rw [ekal]; split <;> simp <;> omega
  · rw [ekal]; split <;> simp <;> omega
  · rw [epoly]; split <;> simp <;> omega
  · rw [epoly]; split <;> simp <;> omega
  · rw [epoly]; split <;> simp <;> omega
  · simp only [esportsNormalizePair]; split <;> simp <;> omega
  · intro ha100 hb100
    have h1 : 0 ≤ ⌊a⌋ := Int.floor_nonneg.mpr ha
    have h2 : 0 ≤ ⌊b⌋ := Int.floor_nonneg.mpr hb
    have h3 : ⌊a⌋ ≤ 100 := by
      have : ((⌊a⌋ : ℤ) : ℚ) ≤ 100 := le_trans (Int.floor_le a) ha100
      exact_mod_cast this
    have h4 : ⌊b⌋ ≤ 100 := by
      have : ((⌊b⌋ : ℤ) : ℚ) ≤ 100 := le_trans (Int.floor_le b) hb100
      exact_mod_cast this
    simp only [esportsNormalizePair]; split <;> constructor <;> simp <;> omega

/-- Witness for `normalizer_amended` at `a = 2`, `b = 3`. -/
theorem normalizer_amended_witness :
    ((0:ℚ) ≤ 2 ∧ (0:ℚ) ≤ 3 ∧ (0:ℚ) < 2 + 3) ∧
    (kalshiNormalizePair 2 3 = specNormalizePair 2 3 ∧
     (kalshiNormalizePair 2 3).1 + (kalshiNormalizePair 2 3).2 = 100 ∧
     0 ≤ (kalshiNormalizePair 2 3).1 ∧ 0 ≤ (kalshiNormalizePair 2 3).2 ∧
     (polyNormalizePair 2 3).1 + (polyNormalizePair 2 3).2 = 100 ∧
     0 ≤ (polyNormalizePair 2 3).1 ∧ 0 ≤ (polyNormalizePair 2 3).2 ∧
     (esportsNormalizePair 2 3).1 + (esportsNormalizePair 2 3).2 = 100 ∧
     ((2:ℚ) ≤ 100 → (3:ℚ) ≤ 100 →
       0 ≤ (esportsNormalizePair 2 3).1 ∧ 0 ≤ (esportsNormalizePair 2 3).2)) :=
  ⟨⟨by norm_num, by norm_num, by norm_num⟩,
   normalizer_amended 2 3 (by norm_num) (by norm_num) (by norm_num)⟩

/-- C9 counterexample: the stored ROI of the end-to-end trade is
`100/39 ≈ 2.5641`, not `2.56`: the claimed value `2.56` contradicts the
claimed formula `roi% = profit_usd / cost_usd × 100`. -/
theorem end_to_end_roi_counterexample :
    c9Exec.2.toOption.map Trade.roi_percent = some (100/39) ∧
    (100/39 : ℚ) ≠ 64/25 := by
  constructor
  · norm_num [c9Exec, c9Game, paperExecuteArb, paperBestAway, paperBestHome,
      paperMkTrade, paperEnrichLeg, paperUnitsFor, paperArbTypeFor,
      paperCost, paperProfit, paperRoi,
      POLY_FEE, KALSHI_FEE,
      SLIPPAGE_ESTIMATE, LIQUIDITY_DISCOUNT, optFalsy, pyOr, pyStr, hasOpenTrade,
      Except.toOption,
      show ("ALP" : String) ≠ "" by decide, show ("BET" : String) ≠ "" by decide,
      show ("pm-away" : String) ≠ "" by decide]
  · norm_num

/-- C9 (amended): with balance 10000, quantity 100 and total effective
cost 97.5 (edge 2.5), `execute_arb` computes `cost_usd = 97.50`,
`profit_usd = 2.50` and `roi% = 100/39 ≈ 2.5641` (displayed as 2.56),
leaving balance 9902.50; after both legs resolve with only the away leg
winning, settlement pays out 100.00, realizes profit 2.50, and the
balance becomes 10002.50. -/
theorem end_to_end_amended :
    c9Exec.2.toOption.map Trade.cost = some (195/2) ∧
    c9Exec.2.toOption.map Trade.profit = some (5/2) ∧
    c9Exec.2.toOption.map Trade.roi_percent = some (100/39) ∧
    c9Exec.2.toOption.map Trade.quantity = some 100 ∧
    c9Exec.2.toOption.map Trade.arb_type = some "perfect" ∧
    c9Exec.2.toOption.map Trade.total_cost_per_unit = some (195/2) ∧
    c9Exec.1.balance = 19805/2 ∧
    c9Settled.balance = 20005/2 ∧
    c9Settled.bets.map Trade.status = [TStatus.settled] ∧
    c9Settled.bets.map Trade.settled_amount = [100] ∧
    c9Settled.bets.map Trade.realized_profit = [5/2] := by
  norm_num [c9Exec, c9Settled, c9Game, c9Check, paperExecuteArb,
    paperBestAway, paperBestHome,
    paperMkTrade, paperEnrichLeg, paperUnitsFor, paperArbTypeFor,
    paperCost, paperProfit, paperRoi,
    paperUpdateSettlements, paperSettleBet, scanLegs, legWins,
    POLY_FEE, KALSHI_FEE, SLIPPAGE_ESTIMATE, LIQUIDITY_DISCOUNT,
    optFalsy, pyOr, pyStr, hasOpenTrade,
    Except.toOption,
    show ("ALP" : String) ≠ "" by decide, show ("BET" : String) ≠ "" by decide,
    show ("pm-away" : String) ≠ "" by decide, show ("kx-home" : String) ≠ "" by decide,
    show ("kx-home" : String) ≠ "pm-away" by decide,
    show ("XXX" : String) ≠ "BET" by decide, show ("XXX" : String) ≠ "Beta" by decide]

/-- `_check_risk_controls` never changes the bets list. -/
theorem checkRiskControls_bets (cfg : RealCfg) (today : String) (st : RealState)
    (c : ℚ) : (checkRiskControls cfg today st c).1.bets = st.bets := by
  simp only [checkRiskControls]
  split_ifs <;> rfl

/-- `_check_risk_controls` never changes the balance. -/
theorem checkRiskControls_balance (cfg : RealCfg) (today : String) (st : RealState)
    (c : ℚ) : (checkRiskControls cfg today st c).1.balance = st.balance := by
  simp only [checkRiskControls]
  split_ifs <;> rfl

/-- `_check_risk_controls` never changes the error log. -/
theorem checkRiskControls_errors (cfg : RealCfg) (today : String) (st : RealState)
    (c : ℚ) : (checkRiskControls cfg today st c).1.errors = st.errors := by
  simp only [checkRiskControls]
  split_ifs <;> rfl

/-- If either venue quotes a non-positive away price, the selected away
leg's raw price is non-positive as well. -/
theorem paperBestAway_price_nonpos (poly : PolyQuote) (kalshi : KalshiQuote)
    (g : Game) (pa ka : ℚ) (h : pa ≤ 0 ∨ ka ≤ 0) :
    (paperBestAway poly kalshi g pa ka).price ≤ 0 := by
  unfold paperBestAway
  simp only [POLY_FEE, KALSHI_FEE, SLIPPAGE_ESTIMATE]
  split_ifs with hc
  · rcases h with h | h
    · exact h
    · nlinarith
  · push_neg at hc
    rcases h with h | h
    · nlinarith
    · exact h

/-- If either venue quotes a non-positive home price, the selected home
leg's raw price is non-positive as well. -/
theorem paperBestHome_price_nonpos (poly : PolyQuote) (kalshi : KalshiQuote)
    (g : Game) (ph kh : ℚ) (h : ph ≤ 0 ∨ kh ≤ 0) :
    (paperBestHome poly kalshi g ph kh).price ≤ 0 := by
  unfold paperBestHome
  simp only [POLY_FEE, KALSHI_FEE, SLIPPAGE_ESTIMATE]
  split_ifs with hc
  · rcases h with h | h
    · exact h
    · nlinarith
  · push_neg at hc
    rcases h with h | h
    · nlinarith
    · exact h

/-- C8: whenever any of the four raw prices used by the paper system is
`≤ 0`, `execute_arb` rejects the game and leaves the state untouched: the
cheaper-effective-price venue selection always picks a leg with a
non-positive raw price, which the zero-price guard rejects. -/
theorem zero_price_always_rejected (cfg : PaperCfg) (st : PaperState) (g : Game)
    (now : ℚ) (poly : PolyQuote) (kalshi : KalshiQuote) (pa ph ka kh : ℚ)
    (hpoly : g.polymarket = some poly) (hkal : g.kalshi = some kalshi)
    (hpa : (poly.raw_away <|> poly.away) = some pa)
    (hph : (poly.raw_home <|> poly.home) = some ph)
    (hka : (kalshi.raw_away <|> kalshi.away) = some ka)
    (hkh : (kalshi.raw_home <|> kalshi.home) = some kh)
    (hzero : pa ≤ 0 ∨ ph ≤ 0 ∨ ka ≤ 0 ∨ kh ≤ 0) :
    ∃ e, paperExecuteArb cfg st g now = (st, .error e) := by
  have hz : (paperBestAway poly kalshi g pa ka).price ≤ 0 ∨
      (paperBestHome poly kalshi g ph kh).price ≤ 0 := by
    rcases hzero with h | h | h | h
    · exact Or.inl (paperBestAway_price_nonpos poly kalshi g pa ka (Or.inl h))
    · exact Or.inr (paperBestHome_price_nonpos poly kalshi g ph kh (Or.inl h))
    · exact Or.inl (paperBestAway_price_nonpos poly kalshi g pa ka (Or.inr h))
    · exact Or.inr (paperBestHome_price_nonpos poly kalshi g ph kh (Or.inr h))
  simp only [paperExecuteArb, hpoly, hkal, hpa, hph, hka, hkh]
  by_cases hcode : (optFalsy g.away_code || optFalsy g.home_code) = true
  · simp only [hcode, if_true]
    exact ⟨_, rfl⟩
  · simp only [hcode, Bool.false_eq_true, if_false, if_pos hz]
    exact ⟨_, rfl⟩

/-- C3 counterexample: the paper `execute_arb` has no same-venue check:
on `c3Game`, whose cheaper venue is Polymarket for both outcomes, it
executes a trade whose two legs are both on Polymarket instead of
rejecting the input. -/
theorem same_venue_not_rejected_paper :
    (paperExecuteArb {} ⟨10000, 10000, []⟩ c3Game 0).2.toOption.map
        (fun t => t.legs.map Leg.platform) =
      some ["Polymarket", "Polymarket"] := by
  norm_num [c3Game, paperExecuteArb, paperBestAway, paperBestHome,
    paperMkTrade, paperEnrichLeg, paperUnitsFor, paperArbTypeFor,
    paperCost, paperProfit, paperRoi,
    POLY_FEE, KALSHI_FEE, SLIPPAGE_ESTIMATE, LIQUIDITY_DISCOUNT,
    optFalsy, pyOr, pyStr, hasOpenTrade, Except.toOption,
    show ("ALP" : String) ≠ "" by decide, show ("BET" : String) ≠ "" by decide,
    show ("pm-a" : String) ≠ "" by decide, show ("pm-h" : String) ≠ "" by decide]

/-- C3 (amended): the live `execute_arb` rejects a same-venue pairing:
whenever the normalized risk detail names the same venue for both legs,
the call fails and neither the trade list nor the balance changes.  The
paper `execute_arb` performs no such check (see the counterexample). -/
theorem same_platform_rejected_live (cfg : RealCfg) (env : VenueEnv)
    (today : String) (now : ℚ) (st : RealState) (g : RealGame) (d : RiskDetail)
    (hd : g.risk_detail = some d)
    (hsame : d.bestAwayFrom = d.bestHomeFrom) :
    execFailed (realExecuteArb cfg env today now st g).2.2 = true ∧
    (realExecuteArb cfg env today now st g).1.bets = st.bets ∧
    (realExecuteArb cfg env today now st g).1.balance = st.balance := by
  simp only [realExecuteArb, hd]
  by_cases hreq : d.bestAwayPrice = none ∨ d.bestHomePrice = none ∨
      d.bestAwayEffective = none ∨ d.bestHomeEffective = none ∨
      d.totalCost = none ∨ d.edge = none
  · simp [hreq, execFailed]
  · simp only [if_neg hreq]
    by_cases hz : d.bestAwayPrice.getD 0 ≤ 0 ∨ d.bestHomePrice.getD 0 ≤ 0
    · simp [hz, execFailed]
    · simp only [if_neg hz]
      by_cases he : ¬(0 < d.edge.getD 0)
      · simp [he, execFailed]
      · simp only [if_neg he]
        cases hpoly : g.polymarket with
        | none => simp [execFailed]
        | some poly =>
          cases hkal : g.kalshi with
          | none => simp [execFailed]
          | some kalshi =>
            by_cases hroi : d.roiPercent.getD 0 ≤ cfg.min_roi
            · simp [hroi, execFailed]
            · simp only [if_neg hroi]
              by_cases hrc : (checkRiskControls cfg today st
                  (d.totalCost.getD 0 / 100 * cfg.target_units)).2 = false
              · simp [hrc, execFailed, checkRiskControls_bets, checkRiskControls_balance]
              · simp only [hrc, Bool.false_eq_true, if_false]
                by_cases hdup : hasOpenTrade st.bets
                    (pyStr g.away_code ++ "@" ++ pyStr g.home_code) = true
                · simp [hdup, execFailed, checkRiskControls_bets, checkRiskControls_balance]
                · simp [hdup, if_pos hsame, execFailed,
                    checkRiskControls_bets, checkRiskControls_balance]

/-- Witness for `same_platform_rejected_live`. -/
theorem same_platform_rejected_live_witness :
    (c3RealGame.risk_detail = some
        { bestAwayFrom := some "Polymarket", bestHomeFrom := some "Polymarket",
          bestAwayPrice := some (1/2), bestHomePrice := some (2/5),
          bestAwayEffective := some (41/80), bestHomeEffective := some (41/100),
          totalCost := some 90, edge := some 10, roiPercent := some 10 }) ∧
    (execFailed (realExecuteArb {} happyEnv "2026-01-01" 0 freshRealState c3RealGame).2.2 = true ∧
     (realExecuteArb {} happyEnv "2026-01-01" 0 freshRealState c3RealGame).1.bets =
       freshRealState.bets ∧
     (realExecuteArb {} happyEnv "2026-01-01" 0 freshRealState c3RealGame).1.balance =
       freshRealState.balance) :=
  ⟨rfl, same_platform_rejected_live {} happyEnv "2026-01-01" 0 freshRealState c3RealGame
      _ rfl rfl⟩

/-- Witness for `zero_price_always_rejected` on `c8Game`. -/
theorem zero_price_always_rejected_witness :
    ((0:ℚ) ≤ 0 ∨ (50:ℚ) ≤ 0 ∨ (55:ℚ) ≤ 0 ∨ (48:ℚ) ≤ 0) ∧
    ∃ e, paperExecuteArb {} ⟨10000, 10000, []⟩ c8Game 0 =
      (⟨10000, 10000, []⟩, .error e) :=
  ⟨Or.inl le_rfl,
   zero_price_always_rejected {} ⟨10000, 10000, []⟩ c8Game 0 _ _ 0 50 55 48
     rfl rfl rfl rfl rfl rfl (Or.inl le_rfl)⟩

/-- C4 counterexample: after more than 24 hours, with the first leg
unresolved and the second leg resolved as a winner, the reconciler leaves
the trade `pending` and the balance untouched, because the leg loop
breaks at the first unresolved leg before counting the resolved second
leg; the claim demands status `incomplete` with payout 100 regardless of
leg order. -/
theorem timeout_leg_order_counterexample :
    (realUpdateSettlements c4Check 200000 c4State).bets.map Trade.status =
      [TStatus.pending] ∧
    (realUpdateSettlements c4Check 200000 c4State).balance = 1000 := by
  norm_num [realUpdateSettlements, realSettleBet, scanLegs, c4Check, c4State,
    c4Trade, c4Leg1, c4Leg2, optFalsy, legWins, pyStr,
    show ("m1" : String) ≠ "" by decide, show ("m2" : String) ≠ "" by decide,
    show ¬(("m1" : String) = "m2") by decide]

/-- C4 (amended): for a pending two-leg trade whose first leg reports
resolved and whose second leg does not, with both market ids present and
strictly more than 86400 seconds elapsed since placement, the reconciler
marks the trade `incomplete`, pays out `quantity` exactly when the first
leg's reported winner matches that leg (the unresolved second leg
contributes zero), sets `realized_profit = payout − cost`, and adds the
magnitude of a negative realized profit to the daily-loss counter.  (When
the unresolved leg comes first the loop breaks before counting any
resolved leg and the trade stays `pending` — see the counterexample.) -/
theorem timeout_incomplete_amended (f : CheckFn) (now : ℚ) (st : RealState)
    (t : Trade) (l1 l2 : Leg)
    (hbets : st.bets = [t]) (hlegs : t.legs = [l1, l2]) (hp : t.status = .pending)
    (h1m : optFalsy l1.market_id = false) (h2m : optFalsy l2.market_id = false)
    (h1r : (f l1.platform (l1.market_id.getD "")).resolved = true)
    (h2r : (f l2.platform (l2.market_id.getD "")).resolved = false)
    (hage : 86400 < now - t.timestamp) :
    ((realUpdateSettlements f now st).bets,
     (realUpdateSettlements f now st).balance,
     (realUpdateSettlements f now st).daily_loss) =
      (let payout := if legWins (f l1.platform (l1.market_id.getD "")) l1
                     then t.quantity else 0
       let rp := payout - t.cost
       ([{ t with status := .incomplete, settled_amount := payout,
                  realized_profit := rp, profit := rp }],
        st.balance + payout,
        st.daily_loss + (if rp < 0 then -rp else 0))) := by
  have hscan : scanLegs f t.quantity t.legs =
      (false,
       (if legWins (f l1.platform (l1.market_id.getD "")) l1 then t.quantity else 0),
       1) := by
    rw [hlegs]
    simp only [scanLegs, h1m, h2m, h1r, h2r, Bool.false_eq_true, if_false, if_true]
    simp
  have hsettle : realSettleBet f now t =
      ({ t with status := .incomplete,
                settled_amount := if legWins (f l1.platform (l1.market_id.getD "")) l1
                                  then t.quantity else 0,
                realized_profit := (if legWins (f l1.platform (l1.market_id.getD "")) l1
                                    then t.quantity else 0) - t.cost,
                profit := (if legWins (f l1.platform (l1.market_id.getD "")) l1
                           then t.quantity else 0) - t.cost },
       (if legWins (f l1.platform (l1.market_id.getD "")) l1 then t.quantity else 0),
       (if (if legWins (f l1.platform (l1.market_id.getD "")) l1
            then t.quantity else 0) - t.cost < 0
        then -((if legWins (f l1.platform (l1.market_id.getD "")) l1
                then t.quantity else 0) - t.cost) else 0)) := by
    rw [realSettleBet, if_pos hp, hscan, hlegs]
    simp only [List.length_cons, List.length_nil]
    rw [if_neg (by simp), if_pos (by simp [hage])]
  simp [realUpdateSettlements, hbets, hsettle]

/-- Witness for `timeout_incomplete_amended` on `c4wState` at time
100000. -/
theorem timeout_incomplete_amended_witness :
    ((86400:ℚ) < 100000 - c4wTrade.timestamp) ∧
    ((realUpdateSettlements c4wCheck 100000 c4wState).bets,
     (realUpdateSettlements c4wCheck 100000 c4wState).balance,
     (realUpdateSettlements c4wCheck 100000 c4wState).daily_loss) =
      (let payout := if legWins (c4wCheck c4wLeg1.platform (c4wLeg1.market_id.getD "")) c4wLeg1
                     then c4wTrade.quantity else 0
       let rp := payout - c4wTrade.cost
       ([{ c4wTrade with status := .incomplete, settled_amount := payout,
                         realized_profit := rp, profit := rp }],
        c4wState.balance + payout,
        c4wState.daily_loss + (if rp < 0 then -rp else 0))) :=
  ⟨by norm_num [c4wTrade],
   timeout_incomplete_amended c4wCheck 100000 c4wState c4wTrade c4wLeg1 c4wLeg2
     rfl rfl rfl rfl rfl rfl rfl (by norm_num [c4wTrade])⟩

/-- `_record_error` changes only the error log. -/
theorem recordError_bets (st : RealState) (tid e : String) :
    (recordError st tid e).bets = st.bets := rfl

/-- `_record_error` changes only the error log (balance part). -/
theorem recordError_balance (st : RealState) (tid e : String) :
    (recordError st tid e).balance = st.balance := rfl

/-- `_place_leg_order` never changes the bets list. -/
theorem placeLegOrder_bets (env : VenueEnv) (st : RealState) (tid : String)
    (leg : Leg) (q : ℚ) : (placeLegOrder env st tid leg q).1.bets = st.bets := by
  simp only [placeLegOrder]
  repeat' split
  all_goals rfl

/-- `_place_leg_order` never changes the balance. -/
theorem placeLegOrder_balance (env : VenueEnv) (st : RealState) (tid : String)
    (leg : Leg) (q : ℚ) : (placeLegOrder env st tid leg q).1.balance = st.balance := by
  simp only [placeLegOrder]
  repeat' split
  all_goals rfl

/-- A successful `_place_leg_order` makes no state change, emits exactly
one placement call (no cancels), and returns the input leg with only its
order fields updated. -/
theorem placeLegOrder_success (env : VenueEnv) (st : RealState) (tid : String)
    (leg : Leg) (q : ℚ) (la : Leg)
    (h : (placeLegOrder env st tid leg q).2.2 = some la) :
    (placeLegOrder env st tid leg q).1 = st ∧
    la.platform = leg.platform ∧
    (leg.platform = "Polymarket" ∨ leg.platform = "Kalshi") ∧
    ((placeLegOrder env st tid leg q).2.1.filter VenueAction.isCancel) = [] := by
  simp only [placeLegOrder] at h ⊢
  repeat' split at h <;> simp_all [VenueAction.isCancel]
  · cases h
    simp_all [beq_iff_eq]
  · cases h
    simp_all [beq_iff_eq]

/-- A failed `_place_leg_order` emits no cancel calls. -/
theorem placeLegOrder_no_cancel (env : VenueEnv) (st : RealState) (tid : String)
    (leg : Leg) (q : ℚ) :
    ((placeLegOrder env st tid leg q).2.1.filter VenueAction.isCancel) = [] := by
  simp only [placeLegOrder]
  repeat' split
  all_goals simp [VenueAction.isCancel]

/-- Shape of `PaperTradingSystem.execute_arb`: every rejection path leaves
the state untouched; the single success path appends exactly one new
pending trade keyed by the outcome-pair id, possible only when no
non-terminal trade with that id already exists. -/
theorem paperExecuteArb_bets_dichotomy (cfg : PaperCfg) (st : PaperState)
    (g : Game) (now : ℚ) :
    ((paperExecuteArb cfg st g now).1 = st ∧
     execFailed (paperExecuteArb cfg st g now).2 = true) ∨
    (∃ t, (paperExecuteArb cfg st g now).2 = .ok t ∧
      (paperExecuteArb cfg st g now).1.bets = st.bets ++ [t] ∧
      t.status = .pending ∧
      t.id = pyStr g.away_code ++ "@" ++ pyStr g.home_code ∧
      hasOpenTrade st.bets t.id = false) := by
  simp only [paperExecuteArb]
  repeat' split
  all_goals first
    | exact Or.inl ⟨rfl, rfl⟩
    | (refine Or.inr ⟨_, rfl, rfl, rfl, ?_, ?_⟩
       · simp [paperMkTrade]
       · simp_all [paperMkTrade])

/-- Shape of `RealTradingSystem.execute_arb`: every failure path leaves
the bets list unchanged (risk-counter resets and error-log entries may
still happen); the single success path appends exactly one new pending
trade keyed by the outcome-pair id, possible only when no non-terminal
trade with that id already exists. -/
theorem realExecuteArb_bets_dichotomy (cfg : RealCfg) (env : VenueEnv)
    (today : String) (now : ℚ) (st : RealState) (g : RealGame) :
    ((realExecuteArb cfg env today now st g).1.bets = st.bets ∧
     execFailed (realExecuteArb cfg env today now st g).2.2 = true) ∨
    (∃ t, (realExecuteArb cfg env today now st g).2.2 = .ok t ∧
      (realExecuteArb cfg env today now st g).1.bets = st.bets ++ [t] ∧
      t.status = .pending ∧
      t.id = pyStr g.away_code ++ "@" ++ pyStr g.home_code ∧
      hasOpenTrade st.bets t.id = false) := by
  cases hgd : g.risk_detail with
  | none => exact Or.inl ⟨by simp [realExecuteArb, hgd], by simp [realExecuteArb, hgd, execFailed]⟩
  | some d =>
    simp only [realExecuteArb, hgd]
    by_cases hreq : d.bestAwayPrice = none ∨ d.bestHomePrice = none ∨
        d.bestAwayEffective = none ∨ d.bestHomeEffective = none ∨
        d.totalCost = none ∨ d.edge = none
    · simp [hreq, execFailed]
    · simp only [if_neg hreq]
      by_cases hz : d.bestAwayPrice.getD 0 ≤ 0 ∨ d.bestHomePrice.getD 0 ≤ 0
      · simp [hz, execFailed]
      · simp only [if_neg hz]
        by_cases he : ¬(0 < d.edge.getD 0)
        · simp [he, execFailed]
        · simp only [if_neg he]
          cases hpoly : g.polymarket with
          | none => simp [execFailed]
          | some poly =>
            cases hkal : g.kalshi with
            | none => simp [execFailed]
            | some kalshi =>
              by_cases hroi : d.roiPercent.getD 0 ≤ cfg.min_roi
              · simp [hroi, execFailed]
              · simp only [if_neg hroi]
                by_cases hrc : (checkRiskControls cfg today st
                    (d.totalCost.getD 0 / 100 * cfg.target_units)).2 = false
                · simp [hrc, execFailed, checkRiskControls_bets]
                · simp only [hrc, Bool.false_eq_true, if_false]
                  rw [checkRiskControls_bets]
                  by_cases hdup : hasOpenTrade st.bets
                      (pyStr g.away_code ++ "@" ++ pyStr g.home_code) = true
                  · simp [hdup, execFailed, checkRiskControls_bets]
                  · rw [if_neg hdup]
                    have hdup0 : hasOpenTrade st.bets
                        (pyStr g.away_code ++ "@" ++ pyStr g.home_code) = false := by
                      simpa using hdup
                    by_cases hsame : d.bestAwayFrom = d.bestHomeFrom
                    · simp [hsame, execFailed, checkRiskControls_bets]
                    · simp only [if_neg hsame]
                      by_cases hamid : optFalsy
                          (if d.bestAwayFrom = some "Polymarket" then
                            pyOr poly.away_market_id poly.market_id
                          else pyOr kalshi.away_ticker kalshi.away_market_id) = true
                      · simp [hamid, execFailed, checkRiskControls_bets]
                      · simp only [hamid, Bool.false_eq_true, if_false]
                        by_cases hhmid : optFalsy
                            (if d.bestHomeFrom = some "Polymarket" then
                              pyOr poly.home_market_id poly.market_id
                            else pyOr kalshi.home_ticker kalshi.home_market_id) = true
                        · simp [hhmid, execFailed, checkRiskControls_bets]
                        · simp only [hhmid, Bool.false_eq_true, if_false]
                          by_cases hq : cfg.target_units ≤ 0
                          · simp [hq, execFailed, checkRiskControls_bets]
                          · simp only [if_neg hq]
                            by_cases hpa : ¬(0 < (realBestAwayLeg d g poly kalshi).price ∧
                                (realBestAwayLeg d g poly kalshi).price < 1)
                            · simp [hpa, execFailed, checkRiskControls_bets]
                            · simp only [if_neg hpa]
                              by_cases hpb : ¬(0 < (realBestHomeLeg d g poly kalshi).price ∧
                                  (realBestHomeLeg d g poly kalshi).price < 1)
                              · simp [hpb, execFailed, checkRiskControls_bets]
                              · simp only [if_neg hpb]
                                rcases hr1 : (placeLegOrder env
                                    (checkRiskControls cfg today st
                                      (d.totalCost.getD 0 / 100 * cfg.target_units)).1
                                    (pyStr g.away_code ++ "@" ++ pyStr g.home_code)
                                    (realBestAwayLeg d g poly kalshi)
                                    cfg.target_units).2.2 with _ | away_leg
                                · simp [hr1, execFailed, placeLegOrder_bets,
                                    checkRiskControls_bets]
                                · simp only [hr1]
                                  rcases hr2 : (placeLegOrder env
                                      (placeLegOrder env
                                        (checkRiskControls cfg today st
                                          (d.totalCost.getD 0 / 100 * cfg.target_units)).1
                                        (pyStr g.away_code ++ "@" ++ pyStr g.home_code)
                                        (realBestAwayLeg d g poly kalshi)
                                        cfg.target_units).1
                                      (pyStr g.away_code ++ "@" ++ pyStr g.home_code)
                                      (realBestHomeLeg d g poly kalshi)
                                      cfg.target_units).2.2 with _ | home_leg
                                  · simp [hr2, execFailed, placeLegOrder_bets,
                                      checkRiskControls_bets]
                                  · simp only [hr2]
                                    by_cases hsave : env.saveOk = true
                                    · simp only [hsave, if_true]
                                      refine Or.inr ⟨_, rfl, ?_, rfl, rfl, ?_⟩
                                      · simp [realAppendTrade, placeLegOrder_bets,
                                          checkRiskControls_bets]
                                      · simpa [realMkTrade] using hdup0
                                    · simp only [hsave, Bool.false_eq_true, if_false]
                                      refine Or.inl ⟨?_, rfl⟩
                                      simp [recordError_bets, realRollback,
                                        realAppendTrade, realMkTrade,
                                        List.getLast?_concat, List.dropLast_concat,
                                        placeLegOrder_bets, checkRiskControls_bets]

/-- Appending one trade changes `openCount` only at its own id, by at
most one. -/
theorem openCount_append (bets : List Trade) (t : Trade) (gid : String) :
    openCount (bets ++ [t]) gid =
      openCount bets gid +
        (if (t.id == gid && (t.status == TStatus.pending || t.status == TStatus.locked)) = true
         then 1 else 0) := by
  simp only [openCount, List.filter_append]
  split <;> simp_all

/-- No open trade for an id means a zero open count. -/
theorem openCount_eq_zero_of_hasOpenTrade_false (bets : List Trade) (gid : String)
    (h : hasOpenTrade bets gid = false) : openCount bets gid = 0 := by
  simp only [hasOpenTrade, List.any_eq_false] at h
  simp only [openCount, List.length_eq_zero, List.filter_eq_nil_iff]
  intro a ha
  exact h a ha

/-- A positive open count means `hasOpenTrade`. -/
theorem hasOpenTrade_of_openCount_pos (bets : List Trade) (gid : String)
    (h : 0 < openCount bets gid) : hasOpenTrade bets gid = true := by
  by_contra hfalse
  have : hasOpenTrade bets gid = false := by
    cases hh : hasOpenTrade bets gid
    · rfl
    · exact absurd hh hfalse
  rw [openCount_eq_zero_of_hasOpenTrade_false bets gid this] at h
  exact absurd h (by omega)

/-- The live `execute_arb` preserves the at-most-one-open-trade-per-id
invariant. -/
theorem realExecuteArb_preserves_invariant (cfg : RealCfg) (env : VenueEnv)
    (today : String) (now : ℚ) (st : RealState) (g : RealGame)
    (hinv : ∀ gid, openCount st.bets gid ≤ 1) :
    ∀ gid, openCount (realExecuteArb cfg env today now st g).1.bets gid ≤ 1 := by
  intro gid
  rcases realExecuteArb_bets_dichotomy cfg env today now st g with
    ⟨hb, -⟩ | ⟨t, -, hb, -, -, hopen⟩
  · rw [hb]; exact hinv gid
  · rw [hb, openCount_append]
    by_cases hmatch :
        (t.id == gid && (t.status == TStatus.pending || t.status == TStatus.locked)) = true
    · have hid : t.id = gid := by
        have := (Bool.and_eq_true _ _).mp hmatch
        exact beq_iff_eq.mp this.1
      have h0 : openCount st.bets gid = 0 := by
        rw [← hid]
        exact openCount_eq_zero_of_hasOpenTrade_false st.bets t.id hopen
      rw [h0]
      simp [hmatch]
    · simp only [hmatch, Bool.false_eq_true, if_false]
      have := hinv gid
      omega

/-- The paper `execute_arb` preserves the at-most-one-open-trade-per-id
invariant. -/
theorem paperExecuteArb_preserves_invariant (cfg : PaperCfg) (st : PaperState)
    (g : Game) (now : ℚ)
    (hinv : ∀ gid, openCount st.bets gid ≤ 1) :
    ∀ gid, openCount (paperExecuteArb cfg st g now).1.bets gid ≤ 1 := by
  intro gid
  rcases paperExecuteArb_bets_dichotomy cfg st g now with
    ⟨hb, -⟩ | ⟨t, -, hb, -, -, hopen⟩
  · rw [hb]; exact hinv gid
  · rw [hb, openCount_append]
    by_cases hmatch :
        (t.id == gid && (t.status == TStatus.pending || t.status == TStatus.locked)) = true
    · have hid : t.id = gid := by
        have := (Bool.and_eq_true _ _).mp hmatch
        exact beq_iff_eq.mp this.1
      have h0 : openCount st.bets gid = 0 := by
        rw [← hid]
        exact openCount_eq_zero_of_hasOpenTrade_false st.bets t.id hopen
      rw [h0]
      simp [hmatch]
    · simp only [hmatch, Bool.false_eq_true, if_false]
      have := hinv gid
      omega

/-- The live `execute_arb` rejects and appends nothing when an open trade
with the same id exists. -/
theorem realExecuteArb_dup_rejected (cfg : RealCfg) (env : VenueEnv)
    (today : String) (now : ℚ) (st : RealState) (g : RealGame)
    (hdup : hasOpenTrade st.bets (pyStr g.away_code ++ "@" ++ pyStr g.home_code) = true) :
    execFailed (realExecuteArb cfg env today now st g).2.2 = true ∧
    (realExecuteArb cfg env today now st g).1.bets = st.bets := by
  rcases realExecuteArb_bets_dichotomy cfg env today now st g with
    ⟨hb, hf⟩ | ⟨t, -, -, -, hid, hopen⟩
  · exact ⟨hf, hb⟩
  · rw [hid, hdup] at hopen
    cases hopen

/-- The paper `execute_arb` rejects and appends nothing when an open
trade with the same id exists. -/
theorem paperExecuteArb_dup_rejected (cfg : PaperCfg) (st : PaperState)
    (g : Game) (now : ℚ)
    (hdup : hasOpenTrade st.bets (pyStr g.away_code ++ "@" ++ pyStr g.home_code) = true) :
    execFailed (paperExecuteArb cfg st g now).2 = true ∧
    (paperExecuteArb cfg st g now).1 = st := by
  rcases paperExecuteArb_bets_dichotomy cfg st g now with
    ⟨hb, hf⟩ | ⟨t, -, -, -, hid, hopen⟩
  · exact ⟨hf, hb⟩
  · rw [hid, hdup] at hopen
    cases hopen

/-- C2: while a `pending`/`locked` trade with an outcome-pair id exists,
every `execute_arb` attempt for a game with that id — live or paper — is
rejected and appends nothing, over any number of retries; consequently
both systems preserve the at-most-one-non-terminal-trade-per-id
invariant. -/
theorem dedup_rejection_invariant (cfg : RealCfg) (env : VenueEnv)
    (today : String) (now : ℚ) (st : RealState) (g : RealGame)
    (cfgP : PaperCfg) (stP : PaperState) (gP : Game) (nowP : ℚ)
    (hdup : hasOpenTrade st.bets (pyStr g.away_code ++ "@" ++ pyStr g.home_code) = true)
    (hdupP : hasOpenTrade stP.bets (pyStr gP.away_code ++ "@" ++ pyStr gP.home_code) = true) :
    (∀ n,
      ((fun s => (realExecuteArb cfg env today now s g).1)^[n] st).bets = st.bets ∧
      execFailed (realExecuteArb cfg env today now
        ((fun s => (realExecuteArb cfg env today now s g).1)^[n] st) g).2.2 = true) ∧
    (∀ n,
      ((fun s => (paperExecuteArb cfgP s gP nowP).1)^[n] stP).bets = stP.bets ∧
      execFailed (paperExecuteArb cfgP
        ((fun s => (paperExecuteArb cfgP s gP nowP).1)^[n] stP) gP nowP).2 = true) ∧
    (∀ (st2 : RealState) (g2 : RealGame),
      (∀ gid, openCount st2.bets gid ≤ 1) →
      ∀ gid, openCount (realExecuteArb cfg env today now st2 g2).1.bets gid ≤ 1) ∧
    (∀ (st2 : PaperState) (g2 : Game),
      (∀ gid, openCount st2.bets gid ≤ 1) →
      ∀ gid, openCount (paperExecuteArb cfgP st2 g2 nowP).1.bets gid ≤ 1) := by
  refine ⟨?_, ?_, ?_, ?_⟩
  · intro n
    induction n with
    | zero => exact ⟨rfl, (realExecuteArb_dup_rejected cfg env today now st g hdup).1⟩
    | succ n ih =>
      obtain ⟨ihb, -⟩ := ih
      have hdupn : hasOpenTrade
          ((fun s => (realExecuteArb cfg env today now s g).1)^[n] st).bets
          (pyStr g.away_code ++ "@" ++ pyStr g.home_code) = true := by
        rw [ihb]; exact hdup
      have step := realExecuteArb_dup_rejected cfg env today now
        ((fun s => (realExecuteArb cfg env today now s g).1)^[n] st) g hdupn
      have hb1 : ((fun s => (realExecuteArb cfg env today now s g).1)^[n+1] st).bets
          = st.bets := by
        rw [Function.iterate_succ_apply']
        rw [step.2, ihb]
      refine ⟨hb1, ?_⟩
      have hdup1 : hasOpenTrade
          ((fun s => (realExecuteArb cfg env today now s g).1)^[n+1] st).bets
          (pyStr g.away_code ++ "@" ++ pyStr g.home_code) = true := by
        rw [hb1]; exact hdup
      exact (realExecuteArb_dup_rejected cfg env today now _ g hdup1).1
  · intro n
    induction n with
    | zero => exact ⟨rfl, (paperExecuteArb_dup_rejected cfgP stP gP nowP hdupP).1⟩
    | succ n ih =>
      obtain ⟨ihb, -⟩ := ih
      have hdupn : hasOpenTrade
          ((fun s => (paperExecuteArb cfgP s gP nowP).1)^[n] stP).bets
          (pyStr gP.away_code ++ "@" ++ pyStr gP.home_code) = true := by
        rw [ihb]; exact hdupP
      have step := paperExecuteArb_dup_rejected cfgP
        ((fun s => (paperExecuteArb cfgP s gP nowP).1)^[n] stP) gP nowP hdupn
      have hb1 : ((fun s => (paperExecuteArb cfgP s gP nowP).1)^[n+1] stP).bets
          = stP.bets := by
        rw [Function.iterate_succ_apply']
        show ((paperExecuteArb cfgP _ gP nowP).1).bets = stP.bets
        rw [step.2, ihb]
      refine ⟨hb1, ?_⟩
      have hdup1 : hasOpenTrade
          ((fun s => (paperExecuteArb cfgP s gP nowP).1)^[n+1] stP).bets
          (pyStr gP.away_code ++ "@" ++ pyStr gP.home_code) = true := by
        rw [hb1]; exact hdupP
      exact (paperExecuteArb_dup_rejected cfgP _ gP nowP hdup1).1
  · exact fun st2 g2 h => realExecuteArb_preserves_invariant cfg env today now st2 g2 h
  · exact fun st2 g2 h => paperExecuteArb_preserves_invariant cfgP st2 g2 nowP h

/-- Witness for `dedup_rejection_invariant`: a second attempt on
`ALP@BET` is rejected and the single stored bet stays put. -/
theorem dedup_rejection_invariant_witness :
    (hasOpenTrade c2RealState.bets
        (pyStr c3RealGame.away_code ++ "@" ++ pyStr c3RealGame.home_code) = true) ∧
    (hasOpenTrade c2PaperState.bets
        (pyStr c3Game.away_code ++ "@" ++ pyStr c3Game.home_code) = true) ∧
    (((fun s => (realExecuteArb {} happyEnv "2026-01-01" 0 s c3RealGame).1)^[1]
        c2RealState).bets = c2RealState.bets ∧
     execFailed (realExecuteArb {} happyEnv "2026-01-01" 0
        ((fun s => (realExecuteArb {} happyEnv "2026-01-01" 0 s c3RealGame).1)^[1]
          c2RealState) c3RealGame).2.2 = true) ∧
    (((fun s => (paperExecuteArb {} s c3Game 0).1)^[1] c2PaperState).bets
        = c2PaperState.bets ∧
     execFailed (paperExecuteArb {}
        ((fun s => (paperExecuteArb {} s c3Game 0).1)^[1] c2PaperState)
        c3Game 0).2 = true) :=
  ⟨by decide, by decide,
   (dedup_rejection_invariant {} happyEnv "2026-01-01" 0 c2RealState c3RealGame
      {} c2PaperState c3Game 0 (by decide) (by decide)).1 1,
   ((dedup_rejection_invariant {} happyEnv "2026-01-01" 0 c2RealState c3RealGame
      {} c2PaperState c3Game 0 (by decide) (by decide)).2).1 1⟩

/-- `.price` of the away leg record. -/
theorem realBestAwayLeg_price (d : RiskDetail) (g : RealGame) (poly : PolyQuote)
    (kalshi : KalshiQuote) :
    (realBestAwayLeg d g poly kalshi).price = d.bestAwayPrice.getD 0 := rfl

/-- `.price` of the home leg record. -/
theorem realBestHomeLeg_price (d : RiskDetail) (g : RealGame) (poly : PolyQuote)
    (kalshi : KalshiQuote) :
    (realBestHomeLeg d g poly kalshi).price = d.bestHomePrice.getD 0 := rfl

/-- `_cancel_leg_order` issues exactly one cancel call when the leg has a
truthy order id and a known platform. -/
theorem cancelLegOrder_eq (la : Leg) (oid : String)
    (hoid : la.order_id = some oid) (hne : oid ≠ "")
    (hp : la.platform = "Polymarket" ∨ la.platform = "Kalshi") :
    cancelLegOrder la = [.cancelOrder la.platform oid] := by
  unfold cancelLegOrder
  rw [hoid]
  simp only [optFalsy, hne, decide_False, Bool.false_eq_true, if_false, Option.getD_some]
  rcases hp with hp | hp <;> simp [hp]

/-- Under the hypotheses that drive `RealTradingSystem.execute_arb` past
every pre-placement guard, the call reduces to the two-leg placement and
persistence tail. -/
theorem realExecuteArb_to_placement (cfg : RealCfg) (env : VenueEnv)
    (today : String) (now : ℚ) (st : RealState) (g : RealGame)
    (d : RiskDetail) (poly : PolyQuote) (kalshi : KalshiQuote)
    (hgd : g.risk_detail = some d)
    (hreq : ¬(d.bestAwayPrice = none ∨ d.bestHomePrice = none ∨
        d.bestAwayEffective = none ∨ d.bestHomeEffective = none ∨
        d.totalCost = none ∨ d.edge = none))
    (he : 0 < d.edge.getD 0)
    (hpoly : g.polymarket = some poly) (hkal : g.kalshi = some kalshi)
    (hroi : cfg.min_roi < d.roiPercent.getD 0)
    (hrc : (checkRiskControls cfg today st
        (d.totalCost.getD 0 / 100 * cfg.target_units)).2 = true)
    (hdup : hasOpenTrade st.bets
        (pyStr g.away_code ++ "@" ++ pyStr g.home_code) = false)
    (hsame : ¬(d.bestAwayFrom = d.bestHomeFrom))
    (hamid : optFalsy (if d.bestAwayFrom = some "Polymarket" then
        pyOr poly.away_market_id poly.market_id
      else pyOr kalshi.away_ticker kalshi.away_market_id) = false)
    (hhmid : optFalsy (if d.bestHomeFrom = some "Polymarket" then
        pyOr poly.home_market_id poly.market_id
      else pyOr kalshi.home_ticker kalshi.home_market_id) = false)
    (hq : 0 < cfg.target_units)
    (hpa : 0 < d.bestAwayPrice.getD 0 ∧ d.bestAwayPrice.getD 0 < 1)
    (hpb : 0 < d.bestHomePrice.getD 0 ∧ d.bestHomePrice.getD 0 < 1) :
    realExecuteArb cfg env today now st g =
      (let st1 := (checkRiskControls cfg today st
          (d.totalCost.getD 0 / 100 * cfg.target_units)).1
       let gid := pyStr g.away_code ++ "@" ++ pyStr g.home_code
       let r1 := placeLegOrder env st1 gid (realBestAwayLeg d g poly kalshi)
                   cfg.target_units
       match r1.2.2 with
       | none => (r1.1, r1.2.1, .error "Failed to place away leg order")
       | some away_leg =>
         let r2 := placeLegOrder env r1.1 gid (realBestHomeLeg d g poly kalshi)
                     cfg.target_units
         match r2.2.2 with
         | none =>
           (r2.1, r1.2.1 ++ r2.2.1 ++ cancelLegOrder away_leg,
            .error "Failed to place home leg order (away leg cancelled)")
         | some home_leg =>
           let st2 := realAppendTrade today
                        (d.totalCost.getD 0 / 100 * cfg.target_units)
                        (realMkTrade cfg d g now away_leg home_leg) r2.1
           if env.saveOk then
             (st2, r1.2.1 ++ r2.2.1, .ok (realMkTrade cfg d g now away_leg home_leg))
           else
             (recordError (realRollback gid
                 (d.totalCost.getD 0 / 100 * cfg.target_units) st2)
                gid "Failed to save trade",
              r1.2.1 ++ r2.2.1, .error "Failed to save trade")) := by
  have hz : ¬(d.bestAwayPrice.getD 0 ≤ 0 ∨ d.bestHomePrice.getD 0 ≤ 0) := by
    push_neg
    exact ⟨hpa.1, hpb.1⟩
  have hrc2 : ¬((checkRiskControls cfg today st
      (d.totalCost.getD 0 / 100 * cfg.target_units)).2 = false) := by
    simp [hrc]
  simp only [realExecuteArb, hgd]
  simp only [if_neg hreq]
  simp only [if_neg hz]
  simp only [if_neg (not_not_intro he)]
  simp only [hpoly, hkal]
  simp only [if_neg (not_le.mpr hroi)]
  simp only [if_neg hrc2]
  rw [checkRiskControls_bets]
  rw [if_neg (by simp [hdup])]
  simp only [if_neg hsame]
  rw [if_neg (by simp [hamid])]
  rw [if_neg (by simp [hhmid])]
  rw [if_neg (not_le.mpr hq)]
  rw [if_neg (not_not_intro (by rw [realBestAwayLeg_price]; exact hpa))]
  rw [if_neg (not_not_intro (by rw [realBestHomeLeg_price]; exact hpb))]

/-- C1: in the live `execute_arb`, when every pre-placement guard passes,
the away leg is placed successfully (with an order id, per the venue
contract), and the home leg placement fails, then the call aborts with an
error, no trade is appended, the balance is unchanged, and the venue-call
trace contains exactly one compensating cancel — for the away leg's
order. -/
theorem compensation_on_leg2_failure (cfg : RealCfg) (env : VenueEnv)
    (today : String) (now : ℚ) (st : RealState) (g : RealGame)
    (d : RiskDetail) (poly : PolyQuote) (kalshi : KalshiQuote)
    (la : Leg) (oid : String)
    (hgd : g.risk_detail = some d)
    (hreq : ¬(d.bestAwayPrice = none ∨ d.bestHomePrice = none ∨
        d.bestAwayEffective = none ∨ d.bestHomeEffective = none ∨
        d.totalCost = none ∨ d.edge = none))
    (he : 0 < d.edge.getD 0)
    (hpoly : g.polymarket = some poly) (hkal : g.kalshi = some kalshi)
    (hroi : cfg.min_roi < d.roiPercent.getD 0)
    (hrc : (checkRiskControls cfg today st
        (d.totalCost.getD 0 / 100 * cfg.target_units)).2 = true)
    (hdup : hasOpenTrade st.bets
        (pyStr g.away_code ++ "@" ++ pyStr g.home_code) = false)
    (hsame : ¬(d.bestAwayFrom = d.bestHomeFrom))
    (hamid : optFalsy (if d.bestAwayFrom = some "Polymarket" then
        pyOr poly.away_market_id poly.market_id
      else pyOr kalshi.away_ticker kalshi.away_market_id) = false)
    (hhmid : optFalsy (if d.bestHomeFrom = some "Polymarket" then
        pyOr poly.home_market_id poly.market_id
      else pyOr kalshi.home_ticker kalshi.home_market_id) = false)
    (hq : 0 < cfg.target_units)
    (hpa : 0 < d.bestAwayPrice.getD 0 ∧ d.bestAwayPrice.getD 0 < 1)
    (hpb : 0 < d.bestHomePrice.getD 0 ∧ d.bestHomePrice.getD 0 < 1)
    (haway : (placeLegOrder env (checkRiskControls cfg today st
        (d.totalCost.getD 0 / 100 * cfg.target_units)).1
        (pyStr g.away_code ++ "@" ++ pyStr g.home_code)
        (realBestAwayLeg d g poly kalshi) cfg.target_units).2.2 = some la)
    (hoid : la.order_id = some oid) (hoidne : oid ≠ "")
    (hhome : (placeLegOrder env (checkRiskControls cfg today st
        (d.totalCost.getD 0 / 100 * cfg.target_units)).1
        (pyStr g.away_code ++ "@" ++ pyStr g.home_code)
        (realBestHomeLeg d g poly kalshi) cfg.target_units).2.2 = none) :
    execFailed (realExecuteArb cfg env today now st g).2.2 = true ∧
    (realExecuteArb cfg env today now st g).1.bets = st.bets ∧
    (realExecuteArb cfg env today now st g).1.balance = st.balance ∧
    ((realExecuteArb cfg env today now st g).2.1.filter VenueAction.isCancel) =
      [VenueAction.cancelOrder la.platform oid] := by
  have hsucc := placeLegOrder_success env
    (checkRiskControls cfg today st (d.totalCost.getD 0 / 100 * cfg.target_units)).1
    (pyStr g.away_code ++ "@" ++ pyStr g.home_code)
    (realBestAwayLeg d g poly kalshi) cfg.target_units la haway
  have hp : la.platform = "Polymarket" ∨ la.platform = "Kalshi" := by
    rw [hsucc.2.1]
    exact hsucc.2.2.1
  rw [realExecuteArb_to_placement cfg env today now st g d poly kalshi hgd hreq he
    hpoly hkal hroi hrc hdup hsame hamid hhmid hq hpa hpb]
  simp only [haway]
  rw [hsucc.1]
  simp only [hhome]
  refine ⟨rfl, ?_, ?_, ?_⟩
  · simp [placeLegOrder_bets, checkRiskControls_bets]
  · simp [placeLegOrder_balance, checkRiskControls_balance]
  · rw [List.filter_append, List.filter_append, placeLegOrder_no_cancel,
      placeLegOrder_no_cancel, cancelLegOrder_eq la oid hoid hoidne hp]
    simp [VenueAction.isCancel]

/-- The entry just recorded by `_record_error` survives the
keep-last-100 truncation. -/
theorem recordError_mem (st : RealState) (tid e : String) :
    (⟨tid, e⟩ : ErrEntry) ∈ (recordError st tid e).errors := by
  simp only [recordError]
  rw [List.drop_append_of_le_length (by simp)]
  simp

/-- C6: after both legs are placed, the post-placement persistence step
decides the outcome atomically.  If `save_data` succeeds the trade is
appended and the balance debited by its cost; if it fails, the rollback
removes the appended trade together with the balance debit — the ledger
never keeps a debit without its trade — and the failure is recorded in
the error log under the outcome-pair id. -/
theorem persistence_failure_consistency (cfg : RealCfg) (env : VenueEnv)
    (today : String) (now : ℚ) (st : RealState) (g : RealGame)
    (d : RiskDetail) (poly : PolyQuote) (kalshi : KalshiQuote)
    (la lh : Leg)
    (hgd : g.risk_detail = some d)
    (hreq : ¬(d.bestAwayPrice = none ∨ d.bestHomePrice = none ∨
        d.bestAwayEffective = none ∨ d.bestHomeEffective = none ∨
        d.totalCost = none ∨ d.edge = none))
    (he : 0 < d.edge.getD 0)
    (hpoly : g.polymarket = some poly) (hkal : g.kalshi = some kalshi)
    (hroi : cfg.min_roi < d.roiPercent.getD 0)
    (hrc : (checkRiskControls cfg today st
        (d.totalCost.getD 0 / 100 * cfg.target_units)).2 = true)
    (hdup : hasOpenTrade st.bets
        (pyStr g.away_code ++ "@" ++ pyStr g.home_code) = false)
    (hsame : ¬(d.bestAwayFrom = d.bestHomeFrom))
    (hamid : optFalsy (if d.bestAwayFrom = some "Polymarket" then
        pyOr poly.away_market_id poly.market_id
      else pyOr kalshi.away_ticker kalshi.away_market_id) = false)
    (hhmid : optFalsy (if d.bestHomeFrom = some "Polymarket" then
        pyOr poly.home_market_id poly.market_id
      else pyOr kalshi.home_ticker kalshi.home_market_id) = false)
    (hq : 0 < cfg.target_units)
    (hpa : 0 < d.bestAwayPrice.getD 0 ∧ d.bestAwayPrice.getD 0 < 1)
    (hpb : 0 < d.bestHomePrice.getD 0 ∧ d.bestHomePrice.getD 0 < 1)
    (haway : (placeLegOrder env (checkRiskControls cfg today st
        (d.totalCost.getD 0 / 100 * cfg.target_units)).1
        (pyStr g.away_code ++ "@" ++ pyStr g.home_code)
        (realBestAwayLeg d g poly kalshi) cfg.target_units).2.2 = some la)
    (hhome : (placeLegOrder env (checkRiskControls cfg today st
        (d.totalCost.getD 0 / 100 * cfg.target_units)).1
        (pyStr g.away_code ++ "@" ++ pyStr g.home_code)
        (realBestHomeLeg d g poly kalshi) cfg.target_units).2.2 = some lh) :
    (env.saveOk = true →
      (realExecuteArb cfg env today now st g).2.2 =
        .ok (realMkTrade cfg d g now la lh) ∧
      (realExecuteArb cfg env today now st g).1.bets =
        st.bets ++ [realMkTrade cfg d g now la lh] ∧
      (realExecuteArb cfg env today now st g).1.balance =
        st.balance - d.totalCost.getD 0 / 100 * cfg.target_units) ∧
    (env.saveOk = false →
      execFailed (realExecuteArb cfg env today now st g).2.2 = true ∧
      (realExecuteArb cfg env today now st g).1.bets = st.bets ∧
      (realExecuteArb cfg env today now st g).1.balance = st.balance ∧
      (⟨pyStr g.away_code ++ "@" ++ pyStr g.home_code, "Failed to save trade"⟩ : ErrEntry) ∈
        (realExecuteArb cfg env today now st g).1.errors) := by
  have hsucc := placeLegOrder_success env
    (checkRiskControls cfg today st (d.totalCost.getD 0 / 100 * cfg.target_units)).1
    (pyStr g.away_code ++ "@" ++ pyStr g.home_code)
    (realBestAwayLeg d g poly kalshi) cfg.target_units la haway
  rw [realExecuteArb_to_placement cfg env today now st g d poly kalshi hgd hreq he
    hpoly hkal hroi hrc hdup hsame hamid hhmid hq hpa hpb]
  simp only [haway]
  rw [hsucc.1]
  simp only [hhome]
  constructor
  · intro hsave
    rw [if_pos hsave]
    refine ⟨rfl, ?_, ?_⟩
    · simp [realAppendTrade, placeLegOrder_bets, checkRiskControls_bets]
    · simp [realAppendTrade, realMkTrade, placeLegOrder_balance, checkRiskControls_balance]
  · intro hsave
    rw [if_neg (by simp [hsave])]
    refine ⟨rfl, ?_, ?_, ?_⟩
    · simp [recordError_bets, realRollback, realAppendTrade, realMkTrade,
        List.getLast?_concat, List.dropLast_concat,
        placeLegOrder_bets, checkRiskControls_bets]
    · simp [recordError_balance, realRollback, realAppendTrade, realMkTrade,
        List.getLast?_concat, sub_add_cancel,
        placeLegOrder_balance, checkRiskControls_balance]
    · exact recordError_mem _ _ _

/-- Witness for `compensation_on_leg2_failure` on `c1Game` with `c1Env`. -/
theorem compensation_on_leg2_failure_witness :
    ((placeLegOrder c1Env (checkRiskControls {} "2026-01-01" freshRealState
        (c1Detail.totalCost.getD 0 / 100 * ({} : RealCfg).target_units)).1
        (pyStr c1Game.away_code ++ "@" ++ pyStr c1Game.home_code)
        (realBestAwayLeg c1Detail c1Game c1Poly c1Kalshi)
        ({} : RealCfg).target_units).2.2 = some c1AwayLeg) ∧
    ((placeLegOrder c1Env (checkRiskControls {} "2026-01-01" freshRealState
        (c1Detail.totalCost.getD 0 / 100 * ({} : RealCfg).target_units)).1
        (pyStr c1Game.away_code ++ "@" ++ pyStr c1Game.home_code)
        (realBestHomeLeg c1Detail c1Game c1Poly c1Kalshi)
        ({} : RealCfg).target_units).2.2 = none) ∧
    (execFailed (realExecuteArb {} c1Env "2026-01-01" 0 freshRealState c1Game).2.2 = true ∧
     (realExecuteArb {} c1Env "2026-01-01" 0 freshRealState c1Game).1.bets =
       freshRealState.bets ∧
     (realExecuteArb {} c1Env "2026-01-01" 0 freshRealState c1Game).1.balance =
       freshRealState.balance ∧
     ((realExecuteArb {} c1Env "2026-01-01" 0 freshRealState c1Game).2.1.filter
        VenueAction.isCancel) =
       [VenueAction.cancelOrder c1AwayLeg.platform "po-1"]) :=
  ⟨rfl, rfl,
   compensation_on_leg2_failure {} c1Env "2026-01-01" 0 freshRealState c1Game
     c1Detail c1Poly c1Kalshi c1AwayLeg "po-1"
     rfl (by decide) (by norm_num [c1Detail]) rfl rfl
     (by norm_num [c1Detail])
     (by norm_num [checkRiskControls, freshRealState, c1Detail])
     (by decide) (by decide) (by decide) (by decide)
     (by norm_num) (by norm_num [c1Detail]) (by norm_num [c1Detail])
     rfl rfl (by decide) rfl⟩

/-- Witness for `persistence_failure_consistency` on `c1Game` with
`c6Env` (placements succeed, the save fails). -/
theorem persistence_failure_consistency_witness :
    (c6Env.saveOk = false) ∧
    (execFailed (realExecuteArb {} c6Env "2026-01-01" 0 freshRealState c1Game).2.2 = true ∧
     (realExecuteArb {} c6Env "2026-01-01" 0 freshRealState c1Game).1.bets =
       freshRealState.bets ∧
     (realExecuteArb {} c6Env "2026-01-01" 0 freshRealState c1Game).1.balance =
       freshRealState.balance ∧
     (⟨pyStr c1Game.away_code ++ "@" ++ pyStr c1Game.home_code,
        "Failed to save trade"⟩ : ErrEntry) ∈
       (realExecuteArb {} c6Env "2026-01-01" 0 freshRealState c1Game).1.errors) :=
  ⟨rfl,
   (persistence_failure_consistency {} c6Env "2026-01-01" 0 freshRealState c1Game
     c1Detail c1Poly c1Kalshi
     { realBestAwayLeg c1Detail c1Game c1Poly c1Kalshi with
         order_id := some "po-1", order_status := some "open" }
     c6HomeLeg
     rfl (by decide) (by norm_num [c1Detail]) rfl rfl
     (by norm_num [c1Detail])
     (by norm_num [checkRiskControls, freshRealState, c1Detail])
     (by decide) (by decide) (by decide) (by decide)
     (by norm_num) (by norm_num [c1Detail]) (by norm_num [c1Detail])
     rfl rfl).2 rfl⟩
